import Mathlib

/-
Verification development for the kotlin-ls language-analysis core.

The Rust source is shallowly embedded: tree-sitter CST nodes become a rose
tree carrying the node kind, the verbatim source text of the node span, and
the start and end positions; `Result<T, anyhow::Error>` becomes
`Except String T` (the string is the displayed context message);
`Option<T>` becomes `Option T`. The raw source bytes (`content : &[u8]`)
are folded into the tree: `node.utf8_text(content)` is modelled by the
`text` field of the node, which the external parser guarantees to be the
verbatim substring of the node span. Recursive AST builders are threaded
with an explicit fuel parameter (a shallow-embedding artifact bounding
recursion depth only; the Rust recursion is structurally decreasing on the
finite tree, and every theorem either quantifies over fuel or supplies
enough of it).
-/

set_option autoImplicit false
set_option maxHeartbeats 400000

/-- A (row, column) point of a tree-sitter node span (`tree_sitter::Point`). -/
structure Point where
  row : Nat
  col : Nat
deriving DecidableEq, Repr

/-- `Display` of `tree_sitter::Point`, used inside error messages. -/
def Point.fmt (p : Point) : String :=
  "(" ++ toString p.row ++ ", " ++ toString p.col ++ ")"

/-- A concrete-syntax-tree node as exposed by the external tree-sitter
parser (section 6 of the spec): a grammar-production kind name, the
verbatim text of the node span, the span itself, and the ordered children. -/
inductive CST : Type where
  | mk (kind text : String) (startPos endPos : Point) (children : List CST)
deriving Repr

def CST.kind : CST → String
  | .mk k _ _ _ _ => k

def CST.text : CST → String
  | .mk _ t _ _ _ => t

def CST.startPos : CST → Point
  | .mk _ _ s _ _ => s

def CST.endPos : CST → Point
  | .mk _ _ _ e _ => e

def CST.children : CST → List CST
  | .mk _ _ _ _ cs => cs

/-- `node.child(i)` of tree-sitter: `None` when out of bounds. -/
def CST.child (n : CST) (i : Nat) : Option CST := n.children[i]?

/-- `node.child_count()`. -/
def CST.child_count (n : CST) : Nat := n.children.length

/-- `node.child(node.child_count() - k)`. In Rust the subtraction is on
`usize`; when `k` exceeds the child count the wrapped index is far out of
bounds and `child` returns `None`, which the `if` models. -/
def CST.childFromEnd (n : CST) (k : Nat) : Option CST :=
  if k ≤ n.child_count then n.children[n.child_count - k]? else none

/-- A CST node together with the navigation context a `tree_sitter::Node`
carries: its parent (with the parent's own context) and its sibling lists
(`before` nearest-first, `after` in order). -/
inductive Ctx : Type where
  | mk (node : CST) (parent : Option Ctx) (before after : List CST)
deriving Repr

def Ctx.node : Ctx → CST
  | .mk n _ _ _ => n

def Ctx.parent : Ctx → Option Ctx
  | .mk _ p _ _ => p

def Ctx.before : Ctx → List CST
  | .mk _ _ b _ => b

def Ctx.after : Ctx → List CST
  | .mk _ _ _ a => a

mutual

/-- The pre-order (depth-first, parents before children, siblings in
order) list of all nodes of a subtree, each with its navigation context.
This is exactly the visit order of the `TreeCursor` loops in the source
(`goto_first_child`, then `goto_next_sibling`/`goto_parent`). -/
def ctxs : CST → Option Ctx → List CST → List CST → List Ctx
  | .mk k x s e cs, parent, before, after =>
    Ctx.mk (.mk k x s e cs) parent before after ::
      ctxsList cs (Ctx.mk (.mk k x s e cs) parent before after) []

/-- Visits a child list left to right, carrying the already-visited
siblings (nearest-first, the `prev_sibling` chain) and handing each child
the remaining ones (the `next_sibling` chain). -/
def ctxsList : List CST → Ctx → List CST → List Ctx
  | [], _, _ => []
  | c :: rest, parent, before =>
    ctxs c (some parent) before rest ++ ctxsList rest parent (c :: before)

end

/-- The traversal of a whole tree: the root has no parent and no siblings. -/
def rootCtxs (t : CST) : List Ctx := ctxs t none [] []

/-- The pre-order node list of a subtree. -/
def preorder (t : CST) : List CST := (rootCtxs t).map Ctx.node

/-- `tower_lsp::lsp_types::Position` (zero-based line / UTF-16 column). -/
structure LspPosition where
  line : Nat
  character : Nat
deriving DecidableEq, Repr

/-- The containment test of `tree.rs::get_node`, verbatim from the source:
all four row/column comparisons are made independently (componentwise),
not lexicographically. -/
def nodeContains (n : CST) (pos : LspPosition) : Bool :=
  decide (n.startPos.row ≤ pos.line) && decide (n.startPos.col ≤ pos.character) &&
  decide (n.endPos.row ≥ pos.line) && decide (n.endPos.col ≥ pos.character)

/-- `tree.rs::get_node`: pre-order traversal recording every node that
passes `nodeContains` into `target_node`; the last node recorded when the
traversal exits the root is returned. -/
def get_node (t : CST) (pos : LspPosition) : Option Ctx :=
  (rootCtxs t).foldl (fun acc c => if nodeContains c.node pos then some c else acc) none

/-- Lexicographic order on (row, column) pairs; this is the containment
order the SPEC describes for the Position Resolver ("start ≤ position ≤
end, compared lexicographically by (line, column)"). Written from the
spec sentence, to be compared against `nodeContains` from the source. -/
def posLexLE (a b : Point) : Bool :=
  decide (a.row < b.row) || (decide (a.row = b.row) && decide (a.col ≤ b.col))

/-- Span containment as the spec words it (lexicographic). -/
def specLexContains (n : CST) (pos : LspPosition) : Bool :=
  posLexLE n.startPos ⟨pos.line, pos.character⟩ &&
  posLexLE ⟨pos.line, pos.character⟩ n.endPos

/-- `tree.rs::get_function`: first pre-order node whose text equals `name`
and whose parent is a `function_declaration` yields a rendered signature;
a text match at the root aborts with `None` (the `?` on `node.parent()`),
and any missing sibling while rendering also aborts with `None`. -/
def get_function_loop (name : String) : List Ctx → Option String
  | [] => none
  | c :: rest =>
    if c.node.text == name then
      match c.parent with
      | none => none
      | some par =>
        if par.node.kind == "function_declaration" then
          match c.before[1]? with
          | none => none
          | some modifier_node =>
            match c.after[0]? with
            | none => none
            | some params_node =>
              let base := modifier_node.text ++ " fun " ++ name ++ params_node.text
              match c.after[1]? with
              | some colon_node =>
                if colon_node.kind == ":" then
                  match c.after[2]? with
                  | none => none
                  | some ret => some (base ++ ": " ++ ret.text)
                else some base
              | none => some base
        else get_function_loop name rest
    else get_function_loop name rest

def get_function (t : CST) (name : String) : Option String :=
  get_function_loop name (rootCtxs t)

/-- `tree.rs::get_navigation`. -/
def get_navigation_loop (name : String) : List Ctx → Option String
  | [] => none
  | c :: rest =>
    if c.node.text == name then
      if c.node.kind == "variable_declaration" then
        match c.before[1]?, c.before[0]?, c.after[1]? with
        | some modifier, some val, some rhs =>
          some (modifier.text ++ " " ++ val.text ++ " " ++ name ++ " = " ++ rhs.text)
        | _, _, _ => none
      else
        match c.parent with
        | none => none
        | some par =>
          if par.node.kind == "class_parameter" then
            match c.before[1]?, c.before[0]?, c.after[1]? with
            | some modifier, some val, some rhs =>
              some (modifier.text ++ " " ++ val.text ++ " " ++ name ++ ": " ++ rhs.text)
            | _, _, _ => none
          else get_navigation_loop name rest
    else get_navigation_loop name rest

def get_navigation (t : CST) (name : String) : Option String :=
  get_navigation_loop name (rootCtxs t)

/-- `tree.rs::get_navigation_type`: stops at the FIRST node whose text
equals `name` (the `return match` leaves the function in every branch). -/
def get_navigation_type_loop (name : String) : List Ctx → Option String
  | [] => none
  | c :: rest =>
    if c.node.text == name then
      if c.node.kind == "variable_declaration" then
        (c.after[1]?).map CST.text
      else
        match c.parent with
        | none => none
        | some par =>
          if par.node.kind == "class_parameter" then (c.after[1]?).map CST.text
          else none
    else get_navigation_type_loop name rest

def get_navigation_type (t : CST) (name : String) : Option String :=
  get_navigation_type_loop name (rootCtxs t)

/-- A file path as handed over by the external file-system walker; the
stem and the extension are the values `Path::file_stem` / `Path::extension`
would compute for it. -/
structure FsPath where
  path : String
  stem : Option String
  ext : Option String
deriving DecidableEq, Repr

/-- `{:?}` (Debug) of a `PathBuf`: the path quoted. -/
def FsPath.dbgFmt (p : FsPath) : String := "\"" ++ p.path ++ "\""

/-- An LSP hover payload. In the source every produced hover is
`HoverContents::Markup(MarkupContent { kind: Markdown, value })` with
`range: None`, so only `value` varies and is modelled. -/
structure Hover where
  value : String
deriving DecidableEq, Repr

/-- The fenced-markdown rendering applied to every resolved signature:
`format!("```kotlin\n{s}\n```")`. -/
def mdCodeBlock (s : String) : String := "```kotlin\n" ++ s ++ "\n```"

/-- `{:?}` (Debug) of an lsp `Position`. -/
def LspPosition.dbgFmt (pos : LspPosition) : String :=
  "Position \x7b line: " ++ toString pos.line ++ ", character: " ++
    toString pos.character ++ " \x7d"

/-- The Project-Index scan of the `navigation_suffix` arm: the first entry
whose file stem equals the resolved navigation type. -/
def findNavFile (trees : List (FsPath × CST)) (navType : String) :
    Option (FsPath × CST) :=
  trees.find? (fun e => e.1.stem == some navType)

/-- `hover.rs::Backend::get_hover`. `trees` is the Backend's project index
(`DashMap<PathBuf, (Tree, String)>`, iterated in list order). Every
`with_context`/`context`/`bail!` becomes `.error` carrying the context
message that anyhow would display. -/
def get_hover (trees : List (FsPath × CST)) (pos : LspPosition) (tree : CST) :
    Except String (Option Hover) :=
  match get_node tree pos with
  | none => .error ("node at " ++ pos.dbgFmt ++ " not found")
  | some c =>
    match c.parent with
    | none => .error "node has no parent"
    | some parent =>
      match parent.node.kind with
      | "call_expression" =>
        let name := c.node.text
        match get_function tree name with
        | none => .error ("function " ++ name ++ " not found")
        | some f => .ok (some ⟨mdCodeBlock f⟩)
      | "navigation_expression" =>
        let name := c.node.text
        match get_navigation tree name with
        | none => .error ("navigation expression " ++ name ++ " not found")
        | some nav => .ok (some ⟨mdCodeBlock nav⟩)
      | "navigation_suffix" =>
        let name := c.node.text
        match parent.before.head? with
        | none => .error "no navigation expression found"
        | some target =>
          match get_navigation_type tree target.text with
          | none => .error "no type for navigation expression found"
          | some navType =>
            match findNavFile trees navType with
            | none => .error ("No file found for " ++ navType)
            | some entry =>
              match get_function entry.2 name with
              | none =>
                .error ("no function with name " ++ name ++ " found in " ++
                  entry.1.dbgFmt)
              | some f => .ok (some ⟨mdCodeBlock f⟩)
      | k => .error (k ++ " is not supported")

/-- Iterating a child list the way tree-sitter cursors do, yielding each
child with its immediate previous and next sibling. -/
def withSibs : Option CST → List CST → List (CST × Option CST × Option CST)
  | _, [] => []
  | p, [x] => [(x, p, none)]
  | p, x :: y :: rest => (x, p, some y) :: withSibs (some x) (y :: rest)

def CST.childrenWithSibs (n : CST) : List (CST × Option CST × Option CST) :=
  withSibs none n.children

/-- `Option::context(msg)` of anyhow: a missing value becomes an error
carrying the context message. -/
def ctxOpt {α : Type} (o : Option α) (msg : String) : Except String α :=
  match o with
  | some a => .ok a
  | none => .error msg

/-- `Result::context(msg)` of anyhow: the context message is what the
protocol layer displays, so it replaces the inner message in the model. -/
def ctxErr {α : Type} (r : Except String α) (msg : String) : Except String α :=
  match r with
  | .ok a => .ok a
  | .error _ => .error msg

/-- The `"[Tag] unhandled child <kind> <text> at <pos>"` messages of the
builders. (The Rust `format!` quotes the text with apostrophes; the quotes
are dropped here.) -/
def unhandled (tag what : String) (c : CST) : String :=
  "[" ++ tag ++ "] " ++ what ++ " " ++ c.kind ++ " " ++ c.text ++ " at " ++ c.startPos.fmt

/-- Formats `{} - {}` position ranges used in several messages. -/
def spanFmt (n : CST) : String := n.startPos.fmt ++ " - " ++ n.endPos.fmt

namespace KB

/- Namespace KB embeds the current-generation semantic model: the modules
src/kotlin/{types,expression/*,literal,statement,assignment,property,
getter,function,variable_declaration,modifier,label,delegation,
constructor_invocation,argument,lambda,object,class}.rs. -/

/-- `types.rs::TYPES`. -/
def TYPES : List String :=
  ["parenthesized_type", "nullable_type", "user_type", "dynamic",
   "function_type", "non_nullable_type"]

/-- `expression/mod.rs::EXPRESSIONS`. -/
def EXPRESSIONS : List String :=
  ["postfix_expression", "call_expression", "indexing_expression",
   "navigation_expression", "prefix_expression", "as_expression",
   "spread_expression",
   "multiplicative_expression", "additive_expression", "range_expression",
   "infix_expression", "elvis_expression", "check_expression",
   "comparison_expression", "equality_expression", "conjunction_expression",
   "disjunction_expression",
   "parenthesized_expression", "simple_identifier", "boolean_literal",
   "integer_literal", "hex_literal", "bin_literal", "character_literal",
   "real_literal", "null", "long_literal", "unsigned_literal",
   "string_literal", "callable_reference", "lambda_literal",
   "anonymous_function", "object_literal", "collection_literal",
   "this_expression", "super_expression", "if_expression", "when_expression",
   "try_expression", "jump_expression"]

/-- `modifier.rs::Modifier`. Source variant `Annotation` is named `Annot`. -/
inductive Modifier : Type where
  | Class (s : String)
  | Visibility (s : String)
  | Annot (s : String)
  | Inheritance (s : String)
  | Member (s : String)
deriving DecidableEq, Repr

/-- `modifier.rs::Modifier::new`. -/
def Modifier.new (n : CST) : Except String Modifier :=
  match n.kind with
  | "visibility_modifier" => .ok (.Visibility n.text)
  | "class_modifier" => .ok (.Class n.text)
  | "annotation" => .ok (.Annot n.text)
  | "inheritance_modifier" => .ok (.Inheritance n.text)
  | "member_modifier" => .ok (.Member n.text)
  | k => .error ("unknown modifier " ++ k)

/-- `types.rs::TypeModifier`. Source variant `Annotation` is named `Annot`. -/
inductive TypeModifier : Type where
  | Annot (s : String)
  | Suspend
deriving DecidableEq, Repr

/-- `label.rs::Label`. -/
structure Label where
  label : String
deriving DecidableEq, Repr

/-- `label.rs::Label::new` (infallible). -/
def Label.new (n : CST) : Except String Label := .ok ⟨n.text⟩

/-- `expression/mod.rs::MultiplicativeOperator`. -/
inductive MultiplicativeOperator : Type where
  | Mul | Div | Mod
deriving DecidableEq, Repr

/-- `expression/mod.rs::MultiplicativeOperator::new` (matches on text). -/
def MultiplicativeOperator.new (n : CST) : Except String MultiplicativeOperator :=
  match n.text with
  | "*" => .ok .Mul
  | "/" => .ok .Div
  | "%" => .ok .Mod
  | _ => .error ("[MultiplicativeOperator] Invalid multiplicative operator at " ++ n.startPos.fmt)

/-- `expression/mod.rs::PrefixUnaryOperator`. -/
inductive PrefixUnaryOperator : Type where
  | Increment | Decrement | Minus | Plus | Negation
deriving DecidableEq, Repr

/-- `expression/mod.rs::PostfixUnaryOperator`. -/
inductive PostfixUnaryOperator : Type where
  | Increment | Decrement | NullAssertion
deriving DecidableEq, Repr

/-- `expression/mod.rs::ComparisonOperator`. -/
inductive ComparisonOperator : Type where
  | Less | Greater | LessEquals | GreaterEquals
deriving DecidableEq, Repr

/-- `expression/mod.rs::ComparisonOperator::new` (matches on text). -/
def ComparisonOperator.new (n : CST) : Except String ComparisonOperator :=
  match n.text with
  | "<" => .ok .Less
  | ">" => .ok .Greater
  | "<=" => .ok .LessEquals
  | ">=" => .ok .GreaterEquals
  | _ => .error ("[ComparisonOperator] Invalid comparison operator at " ++ n.startPos.fmt)

/-- `expression/mod.rs::EqualityOperator`. -/
inductive EqualityOperator : Type where
  | ReferentialEquality | StructuralEquality
  | ReferentialInequality | StructuralInequality
deriving DecidableEq, Repr

/-- `expression/mod.rs::EqualityOperator::new` (matches on text). -/
def EqualityOperator.new (n : CST) : Except String EqualityOperator :=
  match n.text with
  | "==" => .ok .StructuralEquality
  | "===" => .ok .ReferentialEquality
  | "!=" => .ok .StructuralInequality
  | "!==" => .ok .ReferentialInequality
  | _ => .error ("[EqualityOperator] Invalid equality operator at " ++ n.startPos.fmt)

/-- `assignment.rs::AssignmentOperator`. -/
inductive AssignmentOperator : Type where
  | Equals | Plus | Minus | Mul | Div | Mod
deriving DecidableEq, Repr

/-- `assignment.rs::AssignmentOperator::new` (matches on kind). -/
def AssignmentOperator.new (n : CST) : Except String AssignmentOperator :=
  match n.kind with
  | "=" => .ok .Equals
  | "+=" => .ok .Plus
  | "-=" => .ok .Minus
  | "*=" => .ok .Mul
  | "/=" => .ok .Div
  | "%=" => .ok .Mod
  | op => .error ("[AssignmentOperator] unknown operator " ++ op ++ " at " ++ n.startPos.fmt)

/-- `function.rs::FunctionModifier`. `Annotation` is named `Annot`. -/
inductive FunctionModifier : Type where
  | Annot (s : String)
  | Member (s : String)
  | Visibility (s : String)
  | Function (s : String)
  | Inheritance (s : String)
deriving DecidableEq, Repr

/-- `property.rs::PropertyMutability`. -/
inductive PropertyMutability : Type where
  | Var | Val
deriving DecidableEq, Repr

/-- `class.rs::ClassParameterMutability`. -/
inductive ClassParameterMutability : Type where
  | Val | Var
deriving DecidableEq, Repr

/-- `class.rs::ClassType`. -/
inductive ClassType : Type where
  | Class | Interface | Enum
deriving DecidableEq, Repr

/-- `expression/mod.rs::NavigationSuffix`. -/
structure NavigationSuffix where
  identifier : String
deriving DecidableEq, Repr

/-- `lambda.rs::LambdaParameter` (a field-less struct; distinct from the
`LambdaParameter` of literal.rs). -/
structure LambdaLiteralParameter where
deriving DecidableEq, Repr

/- The semantic model is one large mutual recursion in the source
(types, expressions, statements, declarations and class bodies all
reference one another). Lean's kernel cost for nested mutual inductive
families grows steeply with the family size, so the model is carried by
four mutually recursive inductives - one per syntactic stratum - with
exactly one constructor per source struct or enum variant, fields and
their names kept verbatim. The Rust type names are recovered as
abbreviations below the block; the constructors keep the variant names
(prefixed only where several source types share a stratum). -/

set_option maxHeartbeats 1000000

mutual

/-- The type stratum: `types.rs::{Type, FunctionTypeParameter,
TypeParameter}`, `function.rs::{Parameter, ParameterWithOptionalType}`,
`variable_declaration.rs::{VariableDeclaration, MultiVariableDeclaration}`
and `literal.rs::LambdaParameter`. Constructors `Nullable`, `NonNullable`
and `Function` are the variants of `Type` (Lean-renamed `Typ`);
`FTPParameter`/`FTPTyp` are `FunctionTypeParameter::Parameter` (wrapping a
`Parameter`) and `FunctionTypeParameter::Type`; `LambdaParameter` is
`literal.rs::LambdaParameter::VariableDeclaration` (wrapping a variable
declaration). -/
inductive TypeNode : Type where
  | Nullable (modifiers : List TypeModifier) (s : String)
  | NonNullable (modifiers : List TypeModifier) (s : String)
  | Function (modifiers : List TypeModifier) (type_identifier : Option String)
      (type_argument : Option ExprNode) (parameters : List TypeNode)
      (return_type : TypeNode)
  | FTPParameter (p : TypeNode)
  | FTPTyp (t : TypeNode)
  | Parameter (name : String) (type_identifier : TypeNode)
  | ParameterWithOptionalType (identifier : String) (data_type : Option TypeNode)
  | TypeParameter (identifier : String) (data_type : Option TypeNode)
  | VariableDeclaration (identifier : String) (data_type : Option TypeNode)
  | MultiVariableDeclaration (variable_declarations : List TypeNode)
  | LambdaParameter (v : TypeNode)

/-- The expression stratum: `expression/mod.rs::{Expression, CallSuffix,
ControlStructureBody, WhenSubject, WhenCondition, WhenEntry,
IndexingSuffix}`, `expression/try.rs::{CatchBlock, FinallyBlock}`,
`argument.rs::Argument` (`ArgValue`/`ArgTyp`; a `TypeProjection` is its
data type), `lambda.rs::{AnnotatedLambda, LambdaLiteral}` and
`literal.rs::Literal` (constructors prefixed `Lit`). Renamings forced by
Lean or by sharing a stratum: `Expression::Type` is `Typ`, `Infix` is
`InfixOp`, `Prefix` is `PrefixOp` (its `annotation` field is `annot`),
`Postfix` is `PostfixOp`, `WhenCondition::{Expression, RangeTest,
TypeTest}` are `WC`-prefixed. -/
inductive ExprNode : Type where
  | Call (expression : ExprNode) (call_suffix : ExprNode)
  | CallSuffix (arguments : Option (List ExprNode)) (annotated_lambda : Option ExprNode)
  | Navigation (expression : ExprNode) (navigation_suffix : NavigationSuffix)
  | If (expression : ExprNode) (body : ExprNode)
  | ControlStructureBody (statements : List StmtNode)
  | Equality (left : ExprNode) (operator : EqualityOperator) (right : ExprNode)
  | Multiplicative (left : ExprNode) (operator : MultiplicativeOperator) (right : ExprNode)
  | Comparison (left : ExprNode) (operator : ComparisonOperator) (right : ExprNode)
  | Disjunction (left : ExprNode) (right : ExprNode)
  | Conjunction (left : ExprNode) (right : ExprNode)
  | Additive (left : ExprNode) (right : ExprNode)
  | Identifier (identifier : String)
  | InfixOp (left : ExprNode) (identifier : String) (right : ExprNode)
  | As (left : ExprNode) (right : ExprNode)
  | Literal (l : ExprNode)
  | When (subject : Option ExprNode) (entries : List ExprNode)
  | WhenSubject (expression : ExprNode)
  | WhenEntry (condition : Option ExprNode) (body : ExprNode)
  | WCExpression (e : ExprNode)
  | WCRangeTest (e : ExprNode)
  | WCTypeTest (t : TypeNode)
  | CheckIn (left : ExprNode) (right : ExprNode)
  | CheckIs (left : ExprNode) (right : TypeNode)
  | CheckNotIn (left : ExprNode) (right : ExprNode)
  | CheckNotIs (left : ExprNode) (right : TypeNode)
  | Elvis (left : ExprNode) (right : ExprNode)
  | Range (left : ExprNode) (right : ExprNode)
  | Typ (t : TypeNode)
  | JumpThrow (e : ExprNode)
  | JumpReturn (l : Option Label) (e : Option ExprNode)
  | JumpContinue (l : Option Label)
  | JumpBreak (l : Option Label)
  | DirectlyAssignable (e : ExprNode)
  | CallableReference (left : Option String) (right : String)
  | PrefixOp (annot : Option String) (label : Option Label)
      (operator : Option PrefixUnaryOperator) (expression : ExprNode)
  | PostfixOp (operator : PostfixUnaryOperator) (expression : ExprNode)
  | Try (block : List StmtNode) (catch_blocks : List ExprNode)
      (finally_block : Option ExprNode)
  | CatchBlock (identifier : String) (typ : TypeNode) (block : List StmtNode)
  | FinallyBlock (block : List StmtNode)
  | Parenthesized (e : ExprNode)
  | Indexing (e : ExprNode) (s : ExprNode)
  | IndexingSuffix (expressions : List ExprNode)
  | This (identifier : Option String)
  | Super
  | ArgValue (expression : ExprNode) (identifier : Option String)
  | ArgTyp (type_projections : List TypeNode)
  | AnnotatedLambda (lambda_literal : ExprNode)
  | LambdaLiteral (statements : Option (List StmtNode))
      (parameters : Option (List LambdaLiteralParameter))
  | LitBoolean (s : String)
  | LitString (s : String)
  | LitInteger (s : String)
  | LitCharacter (s : String)
  | LitNull
  | LitObject (body : ClassNode) (delegations : List ClassNode)
  | LitLambda (statements : Option (List StmtNode)) (parameters : Option (List TypeNode))

/-- The statement/declaration stratum: `statement.rs::{Statement
(constructors prefixed St), ForParameter (prefixed FP)}`,
`assignment.rs::Assignment`, `property.rs::{Property,
PropertyVariableDeclaration (prefixed PVD), PropertyDelegate}`,
`getter.rs::{Getter, Setter}` and `function.rs::{Function, FunctionBody
(prefixed FB)}`. A `While`/`For` body is a `ControlStructureBody` node of
the expression stratum. -/
inductive StmtNode : Type where
  | StPropertyDeclaration (p : StmtNode)
  | StExpression (e : ExprNode)
  | StAssignment (a : StmtNode)
  | StFunction (f : StmtNode)
  | StWhile (e : ExprNode) (body : Option ExprNode)
  | StFor (e : ExprNode) (p : StmtNode) (body : Option ExprNode)
  | FPVariableDeclaration (v : TypeNode)
  | FPMultiVariableDeclaration (m : TypeNode)
  | Assignment (operator : AssignmentOperator) (left : ExprNode) (right : ExprNode)
  | Property (modifiers : List Modifier) (variable_declaration : StmtNode)
      (extension_type : Option TypeNode) (mutability : PropertyMutability)
      (expression : Option ExprNode) (delegate : Option StmtNode)
      (getter : Option StmtNode) (setter : Option StmtNode)
  | PVDSingle (v : TypeNode)
  | PVDMulti (m : TypeNode)
  | PropertyDelegate (expression : ExprNode)
  | Getter (modifiers : Option (List Modifier)) (function_body : Option StmtNode)
  | Setter (modifiers : Option (List Modifier)) (parameter : Option TypeNode)
      (function_body : Option StmtNode)
  | FBBlock (stmts : List StmtNode)
  | FBExpression (e : ExprNode)
  | Function (modifiers : List FunctionModifier) (name : String)
      (parameters : List TypeNode) (return_type : Option String)
      (body : Option StmtNode)

/-- The class-declaration stratum: `class.rs::{ClassBody (ClassBodyC for
the Class variant, ClassBodyE for the Enum variant), EnumEntry,
AnonymousInitializer, CompanionObject, ClassParameter, Constructor, Class,
SecondaryConstructor}`, `object.rs::Object`, `delegation.rs::Delegation`
(DelTyp for its `Type` variant, DelConstructorInvocation for the other)
and `constructor_invocation.rs::ConstructorInvocation` (whose
`Vec<ValueArgument>` field names a type absent from the sources; per its
construction sites a value argument is the `Argument` of argument.rs). -/
inductive ClassNode : Type where
  | ClassBodyC (properties : List StmtNode) (functions : List StmtNode)
      (objects : List ClassNode) (classes : List ClassNode)
      (companion_objects : List ClassNode)
      (anonymous_initializers : List ClassNode)
      (secondary_constructors : List ClassNode)
  | ClassBodyE (entries : List ClassNode) (properties : List StmtNode)
      (functions : List StmtNode) (objects : List ClassNode)
      (classes : List ClassNode) (companion_objects : List ClassNode)
      (anonymous_initializers : List ClassNode)
      (secondary_constructors : List ClassNode)
  | EnumEntry (modifiers : List Modifier) (identifier : String)
      (value_arguments : Option (List ExprNode)) (class_body : Option ClassNode)
  | AnonymousInitializer (statements : List StmtNode)
  | CompanionObject (body : ClassNode)
  | Object (modifiers : List Modifier) (name : String)
      (delegations : List ClassNode) (class_body : Option ClassNode)
  | DelTyp (t : TypeNode)
  | DelConstructorInvocation (ci : ClassNode)
  | ConstructorInvocation (data_type : TypeNode) (arguments : List ExprNode)
  | ClassParameter (mutability : Option ClassParameterMutability) (name : String)
      (data_type : TypeNode) (modifiers : List Modifier)
      (expression : Option ExprNode)
  | Constructor (modifiers : List Modifier) (parameters : List ClassNode)
  | Class (class_type : ClassType) (name : String) (modifiers : List Modifier)
      (type_parameters : List TypeNode) (constructor : Option ClassNode)
      (delegations : List ClassNode) (body : Option ClassNode)
  | SecondaryConstructor (parameters : List TypeNode) (block : List StmtNode)

end

/-- `types.rs::Type` (Lean keyword, hence `Typ`). -/
abbrev Typ : Type := TypeNode

/-- `types.rs::FunctionTypeParameter`. -/
abbrev FunctionTypeParameter : Type := TypeNode

/-- `types.rs::TypeParameter`. -/
abbrev TypeParameter : Type := TypeNode

/-- `function.rs::Parameter`. -/
abbrev Parameter : Type := TypeNode

/-- `function.rs::ParameterWithOptionalType`. -/
abbrev ParameterWithOptionalType : Type := TypeNode

/-- `variable_declaration.rs::VariableDeclaration`. -/
abbrev VariableDeclaration : Type := TypeNode

/-- `variable_declaration.rs::MultiVariableDeclaration`. -/
abbrev MultiVariableDeclaration : Type := TypeNode

/-- `literal.rs::LambdaParameter`. -/
abbrev LambdaParameter : Type := TypeNode

/-- `argument.rs::TypeProjection` (a single-field wrapper of its type). -/
abbrev TypeProjection : Type := TypeNode

/-- `expression/mod.rs::Expression`. -/
abbrev Expression : Type := ExprNode

/-- `argument.rs::Argument`. -/
abbrev Argument : Type := ExprNode

/-- `expression/mod.rs::CallSuffix`. -/
abbrev CallSuffix : Type := ExprNode

/-- `expression/mod.rs::ControlStructureBody`. -/
abbrev ControlStructureBody : Type := ExprNode

/-- `expression/mod.rs::WhenSubject`. -/
abbrev WhenSubject : Type := ExprNode

/-- `expression/mod.rs::WhenCondition`. -/
abbrev WhenCondition : Type := ExprNode

/-- `expression/mod.rs::WhenEntry`. -/
abbrev WhenEntry : Type := ExprNode

/-- `expression/mod.rs::IndexingSuffix`. -/
abbrev IndexingSuffix : Type := ExprNode

/-- `expression/try.rs::CatchBlock`. -/
abbrev CatchBlock : Type := ExprNode

/-- `expression/try.rs::FinallyBlock`. -/
abbrev FinallyBlock : Type := ExprNode

/-- `lambda.rs::AnnotatedLambda`. -/
abbrev AnnotatedLambda : Type := ExprNode

/-- `lambda.rs::LambdaLiteral`. -/
abbrev LambdaLiteral : Type := ExprNode

/-- `literal.rs::Literal`. -/
abbrev Literal : Type := ExprNode

/-- `statement.rs::Statement`. -/
abbrev Statement : Type := StmtNode

/-- `statement.rs::ForParameter`. -/
abbrev ForParameter : Type := StmtNode

/-- `assignment.rs::Assignment`. -/
abbrev Assignment : Type := StmtNode

/-- `property.rs::Property`. -/
abbrev Property : Type := StmtNode

/-- `property.rs::PropertyVariableDeclaration`. -/
abbrev PropertyVariableDeclaration : Type := StmtNode

/-- `property.rs::PropertyDelegate`. -/
abbrev PropertyDelegate : Type := StmtNode

/-- `getter.rs::Getter`. -/
abbrev Getter : Type := StmtNode

/-- `getter.rs::Setter`. -/
abbrev Setter : Type := StmtNode

/-- `function.rs::FunctionBody`. -/
abbrev FunctionBody : Type := StmtNode

/-- `function.rs::Function`. -/
abbrev Function : Type := StmtNode

/-- `class.rs::ClassBody`. -/
abbrev ClassBody : Type := ClassNode

/-- `class.rs::EnumEntry`. -/
abbrev EnumEntry : Type := ClassNode

/-- `class.rs::AnonymousInitializer`. -/
abbrev AnonymousInitializer : Type := ClassNode

/-- `class.rs::CompanionObject`. -/
abbrev CompanionObject : Type := ClassNode

/-- `object.rs::Object`. -/
abbrev Object : Type := ClassNode

/-- `delegation.rs::Delegation`. -/
abbrev Delegation : Type := ClassNode

/-- `constructor_invocation.rs::ConstructorInvocation`. -/
abbrev ConstructorInvocation : Type := ClassNode

/-- `class.rs::ClassParameter`. -/
abbrev ClassParameter : Type := ClassNode

/-- `class.rs::Constructor`. -/
abbrev Constructor : Type := ClassNode

/-- `class.rs::Class`. -/
abbrev Class : Type := ClassNode

/-- `class.rs::SecondaryConstructor`. -/
abbrev SecondaryConstructor : Type := ClassNode

/-- The `getter` field of a `Property` node (none on any other node). -/
def Property.getterOf : StmtNode → Option StmtNode
  | .Property _ _ _ _ _ _ g _ => g
  | _ => none

/-- The `setter` field of a `Property` node (none on any other node). -/
def Property.setterOf : StmtNode → Option StmtNode
  | .Property _ _ _ _ _ _ _ s => s
  | _ => none

/-- The error produced when the explicit recursion fuel runs out; a
modelling artifact (see the header comment), never reached by any theorem
of this file. -/
def fuelMsg : String := "model: recursion fuel exhausted"

/-- `expression/mod.rs::NavigationSuffix::new`. -/
def NavigationSuffix.new (n : CST) : Except String NavigationSuffix := do
  let child ← ctxOpt (n.child 1)
    ("[NavigationSuffix] no navigation_suffix found at " ++ n.startPos.fmt)
  match child.kind with
  | "simple_identifier" => .ok ⟨child.text⟩
  | _ => .error (unhandled "NavigationSuffix" "unhandled child" child)

/-- `expression/mod.rs::callable_reference`. -/
def callable_reference (n : CST) : Except String Expression := do
  let first ← ctxOpt (n.child 0)
    ("[Expression::CallableReference] too little children at " ++ n.startPos.fmt)
  let second ← ctxOpt (n.child 1)
    ("[Expression::CallableReference] too little children at " ++ n.startPos.fmt)
  match first.kind with
  | "::" => .ok (.CallableReference none second.text)
  | _ => .ok (.CallableReference (some first.text) second.text)

/-- `expression/mod.rs::this_expression`. -/
def this_expression (n : CST) : Except String Expression := do
  let first ← ctxOpt (n.child 0) ("[Expression::This] no child at " ++ n.startPos.fmt)
  match first.kind with
  | "this" => .ok (.This none)
  | "this@" => do
    let second ← ctxOpt (n.child 1) ("[Expression::This] no child at " ++ n.startPos.fmt)
    .ok (.This (some second.text))
  | t => .error ("[Expression::This] unhandled this " ++ t ++ " at " ++ n.startPos.fmt)

/-- Accumulator of the child loop of `function.rs::Function::new`. -/
structure FunctionNewAcc where
  modifiers : List FunctionModifier := []
  name : Option String := none
  parameters : List Parameter := []
  return_type : Option String := none
  body : Option FunctionBody := none

/-- Accumulator of the child loop of `property.rs::Property::new`. -/
structure PropertyNewAcc where
  modifiers : List Modifier := []
  variable_declaration : Option PropertyVariableDeclaration := none
  mutability : Option PropertyMutability := none
  extension_type : Option Typ := none
  expression : Option Expression := none
  getter : Option Getter := none
  setter : Option Setter := none
  delegate : Option PropertyDelegate := none

/-- Accumulator of the child loop of `assignment.rs::Assignment::new`. -/
structure AssignmentNewAcc where
  left : Option Expression := none
  right : Option Expression := none
  operator : Option AssignmentOperator := none

/-- Accumulator of the child loop of `object.rs::Object::new`. -/
structure ObjectNewAcc where
  modifiers : List Modifier := []
  name : Option String := none
  delegations : List Delegation := []
  class_body : Option ClassBody := none

/-- Accumulator of the child loop of `class.rs::EnumEntry::new`. -/
structure EnumEntryNewAcc where
  modifiers : List Modifier := []
  identifier : Option String := none
  value_arguments : Option (List Argument) := none
  class_body : Option ClassBody := none

/-- Accumulator of the child loops of `class.rs::ClassBody`. -/
structure ClassBodyNewAcc where
  entries : List EnumEntry := []
  properties : List Property := []
  functions : List Function := []
  objects : List Object := []
  classes : List Class := []
  companion_objects : List CompanionObject := []
  anonymous_initializers : List AnonymousInitializer := []
  secondary_constructors : List SecondaryConstructor := []

/-- Accumulator of the child loop of `class.rs::ClassParameter::new`
(`stopped` models the `break` after an initializer expression). -/
structure ClassParameterNewAcc where
  mutability : Option ClassParameterMutability := none
  name : Option String := none
  data_type : Option Typ := none
  modifiers : List Modifier := []
  expression : Option Expression := none
  stopped : Bool := false

/-- Accumulator of the child loop of `class.rs::Class::new`. -/
structure ClassNewAcc where
  modifiers : List Modifier := []
  class_type : Option ClassType := none
  name : Option String := none
  type_parameters : List TypeParameter := []
  constructor : Option Constructor := none
  body : Option ClassBody := none
  delegations : List Delegation := []

mutual

/-- `types.rs::Type::new`. `prev` is `node.prev_sibling()`, whose children
are read back as type modifiers. -/
def Typ.new : Nat → CST → Option CST → Except String Typ
  | 0, _, _ => .error fuelMsg
  | _fuel+1, n, prev => do
    let modifiers ←
      match prev with
      | some p =>
        p.children.mapM (fun c =>
          match c.kind with
          | "annotation" => .ok (TypeModifier.Annot c.text)
          | "suspend" => .ok TypeModifier.Suspend
          | _ => .error (unhandled "Type::Modifier" "unhandled modifier" c))
      | none => pure []
    match n.kind with
    | "function_type" => get_function_type _fuel modifiers n
    | "user_type" => .ok (.NonNullable modifiers n.text)
    | "nullable_type" => .ok (.Nullable modifiers n.text)
    | _ => .error ("[Type] unhandled type " ++ n.kind ++ " " ++ n.text ++ " at " ++ n.startPos.fmt)

/-- `types.rs::get_function_type`. -/
def get_function_type : Nat → List TypeModifier → CST → Except String Typ
  | 0, _, _ => .error fuelMsg
  | fuel+1, modifiers, n => do
    let first ← ctxOpt (n.child 0)
      ("[Type::Function] no function parameters found at " ++ n.startPos.fmt)
    match first.kind with
    | "function_type_parameters" => do
      let params ← get_function_type_params fuel first
      let retNode ← ctxOpt (n.child 2)
        ("[Type::Function] no return type found at " ++ n.startPos.fmt)
      let ret ← Typ.new fuel retNode (n.child 1)
      .ok (.Function modifiers none none params ret)
    | "type_identifier" => do
      let argNode ← ctxOpt (n.child 1)
        ("[Type::Function] no function parameters found at " ++ n.startPos.fmt)
      let targ ← get_type_argument fuel argNode
      let paramsNode ← ctxOpt (n.child 2)
        ("[Type::Function] no function parameters found at " ++ n.startPos.fmt)
      let params ← get_function_type_params fuel paramsNode
      let ret ←
        match (n.child 4).filter (fun c => c.kind != "->") with
        | some retNode => Typ.new fuel retNode (n.child 3)
        | none =>
          match n.child 5 with
          | some retNode => Typ.new fuel retNode (n.child 4)
          | none => .error ("[Type::Function] no return type found at " ++ n.startPos.fmt)
      .ok (.Function modifiers (some first.text) (some targ) params ret)
    | k => .error ("[Type::Function] unhandled child " ++ k ++ " at " ++ n.startPos.fmt)

/-- `types.rs::get_function_type_params`. -/
def get_function_type_params : Nat → CST → Except String (List FunctionTypeParameter)
  | 0, _ => .error fuelMsg
  | fuel+1, n =>
    n.childrenWithSibs.foldlM (fun (acc : List FunctionTypeParameter) cs => do
      let (c, cPrev, _) := cs
      match c.kind with
      | "(" | ")" | "," => pure acc
      | "parameter" => do
        let p ← FunctionTypeParameter.new_parameter fuel c
        pure (acc ++ [p])
      | "user_type" | "nullable_type" => do
        let p ← FunctionTypeParameter.new_type fuel c cPrev
        pure (acc ++ [p])
      | _ => .error (unhandled "Type::Function::TypeParams" "unhandled child" c)) []

/-- `types.rs::FunctionTypeParameter::new_parameter`. -/
def FunctionTypeParameter.new_parameter : Nat → CST → Except String FunctionTypeParameter
  | 0, _ => .error fuelMsg
  | fuel+1, n => do
    let acc ← n.childrenWithSibs.foldlM
      (fun (acc : Option String × Option Typ) cs => do
        let (c, cPrev, _) := cs
        match c.kind with
        | "(" | ")" | ":" => pure acc
        | "simple_identifier" => pure (some c.text, acc.2)
        | "user_type" | "nullable_type" => do
          let t ← Typ.new fuel c cPrev
          pure (acc.1, some t)
        | _ => .error (unhandled "FunctionTypeParameter" "unhandled child" c))
      (none, none)
    let name ← ctxOpt acc.1
      ("[FunctionTypeParameter] no identifier found at " ++ n.startPos.fmt)
    let t ← ctxOpt acc.2
      ("[FunctionTypeParameter] no param type found at " ++ n.startPos.fmt)
    .ok (.FTPParameter (.Parameter name t))

/-- `types.rs::FunctionTypeParameter::new_type`. -/
def FunctionTypeParameter.new_type : Nat → CST → Option CST → Except String FunctionTypeParameter
  | 0, _, _ => .error fuelMsg
  | fuel+1, n, prev => do
    let t ← Typ.new fuel n prev
    .ok (.FTPTyp t)

/-- `types.rs::TypeParameter::new`. -/
def TypeParameter.new : Nat → CST → Except String TypeParameter
  | 0, _ => .error fuelMsg
  | fuel+1, n => do
    let acc ← n.childrenWithSibs.foldlM
      (fun (acc : Option String × Option Typ) cs => do
        let (c, cPrev, _) := cs
        match c.kind with
        | "type_identifier" => pure (some c.text, acc.2)
        | k =>
          if TYPES.contains k then do
            let t ← Typ.new fuel c cPrev
            pure (acc.1, some t)
          else .error (unhandled "TypeParameter" "unhandled child" c))
      (none, none)
    let name ← ctxOpt acc.1 ("[TypeParameter] no identifier found at " ++ n.startPos.fmt)
    .ok (.TypeParameter name acc.2)

/-- `argument.rs::TypeProjection::new`. -/
def TypeProjection.new : Nat → CST → Except String TypeProjection
  | 0, _ => .error fuelMsg
  | fuel+1, n => do
    let acc ← n.childrenWithSibs.foldlM
      (fun (_acc : Option Typ) cs => do
        let (c, cPrev, _) := cs
        match c.kind with
        | "user_type" => do
          let t ← Typ.new fuel c cPrev
          pure (some t)
        | _ => .error (unhandled "TypeProjection" "unhandled child" c))
      none
    ctxOpt acc ("[TypeProjection] no data type found at " ++ n.startPos.fmt)

/-- `argument.rs::Argument::new_value_argument`. The `simple_identifier`
arm checks `child.next_sibling()`: followed by `=` it is the argument
name, else it is the argument expression. -/
def Argument.new_value_argument : Nat → CST → Except String Argument
  | 0, _ => .error fuelMsg
  | fuel+1, n => do
    let acc ← n.childrenWithSibs.foldlM
      (fun (acc : Option Expression × Option String) cs => do
        let (c, cPrev, cNext) := cs
        match c.kind with
        | "=" => pure acc
        | "call_expression" | "navigation_expression" | "infix_expression"
        | "as_expression" | "boolean_literal" | "null" | "string_literal"
        | "lambda_literal" | "integer_literal" | "elvis_expression"
        | "equality_expression" | "callable_reference" => do
          let e ← Expression.new fuel c cPrev
          pure (some e, acc.2)
        | "simple_identifier" =>
          if cNext.isSome then pure (acc.1, some c.text)
          else do
            let e ← Expression.new fuel c cPrev
            pure (some e, acc.2)
        | _ => .error (unhandled "ValueArgument" "unhandled child" c))
      (none, none)
    let e ← ctxOpt acc.1 ("[ValueArgument] no expression found at " ++ n.startPos.fmt)
    .ok (.ArgValue e acc.2)

/-- `argument.rs::get_value_arguments`. -/
def get_value_arguments : Nat → CST → Except String (List Argument)
  | 0, _ => .error fuelMsg
  | fuel+1, n =>
    n.children.foldlM (fun (acc : List Argument) c =>
      match c.kind with
      | "(" | ")" | "," => pure acc
      | "value_argument" => do
        let a ← Argument.new_value_argument fuel c
        pure (acc ++ [a])
      | _ => .error (unhandled "get_value_arguments" "unhandled child" c)) []

/-- `argument.rs::get_type_argument`. -/
def get_type_argument : Nat → CST → Except String Argument
  | 0, _ => .error fuelMsg
  | fuel+1, n => do
    let ps ← n.children.foldlM (fun (acc : List TypeProjection) c =>
      match c.kind with
      | "<" | ">" | "," => pure acc
      | "type_projection" => do
        let p ← TypeProjection.new fuel c
        pure (acc ++ [p])
      | _ => .error (unhandled "get_type_argument" "unhandled child" c)) []
    .ok (.ArgTyp ps)

/-- Modelled from the spec: `argument::get_arguments`, called by
`constructor_invocation.rs` and absent from the sources; the spec has
constructor invocations carry their value-argument list, so it builds the
same list as `get_value_arguments`. -/
def get_arguments : Nat → CST → Except String (List Argument)
  | 0, _ => .error fuelMsg
  | fuel+1, n => get_value_arguments fuel n

/-- `variable_declaration.rs::VariableDeclaration::new`. -/
def VariableDeclaration.new : Nat → CST → Except String VariableDeclaration
  | 0, _ => .error fuelMsg
  | fuel+1, n => do
    let acc ← n.childrenWithSibs.foldlM
      (fun (acc : Option String × Option Typ) cs => do
        let (c, cPrev, _) := cs
        match c.kind with
        | ":" => pure acc
        | "simple_identifier" => pure (some c.text, acc.2)
        | "user_type" | "nullable_type" => do
          let t ← Typ.new fuel c cPrev
          pure (acc.1, some t)
        | _ => .error (unhandled "VariableDeclaration" "unhandled child" c))
      (none, none)
    let name ← ctxOpt acc.1 "no identifier found"
    .ok (.VariableDeclaration name acc.2)

/-- `variable_declaration.rs::MultiVariableDeclaration::new`. -/
def MultiVariableDeclaration.new : Nat → CST → Except String MultiVariableDeclaration
  | 0, _ => .error fuelMsg
  | fuel+1, n => do
    let vars ← n.children.foldlM (fun (acc : List VariableDeclaration) c =>
      match c.kind with
      | "(" | "," | ")" => pure acc
      | "variable_declaration" => do
        let v ← VariableDeclaration.new fuel c
        pure (acc ++ [v])
      | _ => .error (unhandled "MultiVariableDeclaration" "unhandled child" c)) []
    .ok (.MultiVariableDeclaration vars)

/-- `delegation.rs::Delegation::new` (returns at the first `user_type` or
`constructor_invocation` child; comments are skipped). -/
def Delegation.new : Nat → CST → Except String Delegation
  | 0, _ => .error fuelMsg
  | fuel+1, n => do
    let acc ← n.childrenWithSibs.foldlM
      (fun (acc : Option Delegation) cs => do
        let (c, cPrev, _) := cs
        match acc with
        | some d => pure (some d)
        | none =>
          match c.kind with
          | "line_comment" | "multi_line_comment" => pure none
          | "user_type" => do
            let t ← Typ.new fuel c cPrev
            pure (some (.DelTyp t))
          | "constructor_invocation" => do
            let ci ← ConstructorInvocation.new fuel c
            pure (some (.DelConstructorInvocation ci))
          | _ => .error (unhandled "Delegation" "unhandled child" c))
      none
    ctxOpt acc ("[Delegation] no child at " ++ spanFmt n)

/-- `constructor_invocation.rs::ConstructorInvocation::new`. -/
def ConstructorInvocation.new : Nat → CST → Except String ConstructorInvocation
  | 0, _ => .error fuelMsg
  | fuel+1, n => do
    let acc ← n.childrenWithSibs.foldlM
      (fun (acc : Option Typ × Option (List Argument)) cs => do
        let (c, cPrev, _) := cs
        match c.kind with
        | "user_type" => do
          let t ← Typ.new fuel c cPrev
          pure (some t, acc.2)
        | "value_arguments" => do
          let args ← get_arguments fuel c
          pure (acc.1, some args)
        | _ => .error (unhandled "" "unhandled child" c))
      (none, none)
    let t ← ctxOpt acc.1 "no data type found"
    let args ← ctxOpt acc.2 "no arguments found"
    .ok (.ConstructorInvocation t args)

/-- `lambda.rs::get_parameters` (every child kind is unhandled, so it
succeeds only on an empty child list). -/
def lambdaGetParameters : Nat → CST → Except String (List LambdaLiteralParameter)
  | 0, _ => .error fuelMsg
  | _fuel+1, n =>
    n.children.foldlM (fun (_acc : List LambdaLiteralParameter) c =>
      .error (unhandled "get_parameters" "unhandled child" c)) []

/-- `lambda.rs::LambdaLiteral::new`. -/
def LambdaLiteral.new : Nat → CST → Except String LambdaLiteral
  | 0, _ => .error fuelMsg
  | fuel+1, n => do
    let acc ← n.children.foldlM
      (fun (acc : Option (List Statement) × Option (List LambdaLiteralParameter)) c =>
        match c.kind with
        | "\x7b" => pure acc
        | "statements" => do
          let s ← get_statements fuel c
          pure (some s, acc.2)
        | "lambda_parameters" => do
          let p ← lambdaGetParameters fuel c
          pure (acc.1, some p)
        | _ => .error (unhandled "LambdaLiteral" "unhandled child" c))
      (none, none)
    .ok (.LambdaLiteral acc.1 acc.2)

/-- `lambda.rs::AnnotatedLambda::new`. -/
def AnnotatedLambda.new : Nat → CST → Except String AnnotatedLambda
  | 0, _ => .error fuelMsg
  | fuel+1, n => do
    let acc ← n.children.foldlM
      (fun (_acc : Option LambdaLiteral) c =>
        match c.kind with
        | "lambda_literal" => do
          let l ← LambdaLiteral.new fuel c
          pure (some l)
        | _ => .error (unhandled "AnnotatedLambda" "unhandled child" c))
      none
    let l ← ctxOpt acc "no lambda_literal found"
    .ok (.AnnotatedLambda l)

/-- `literal.rs::get_parameters` (lambda parameters of a lambda literal). -/
def literalGetParameters : Nat → CST → Except String (List LambdaParameter)
  | 0, _ => .error fuelMsg
  | fuel+1, n =>
    n.children.foldlM (fun (acc : List LambdaParameter) c =>
      match c.kind with
      | "," => pure acc
      | "variable_declaration" => do
        let v ← VariableDeclaration.new fuel c
        pure (acc ++ [.LambdaParameter v])
      | _ => .error (unhandled "get_parameters" "unhandled child" c)) []

/-- `literal.rs::Literal::new`. Note: no arm handles `long_literal`,
`real_literal` or `hex_literal`; those kinds fall into the final
"unhandled node" error although `Expression::new` routes them here. -/
def Literal.new : Nat → CST → Except String Literal
  | 0, _ => .error fuelMsg
  | fuel+1, n =>
    match n.kind with
    | "boolean_literal" => .ok (.LitBoolean n.text)
    | "string_literal" => .ok (.LitString n.text)
    | "integer_literal" => .ok (.LitInteger n.text)
    | "character_literal" => .ok (.LitCharacter n.text)
    | "object_literal" => do
      let acc ← n.children.foldlM
        (fun (acc : List Delegation × Option Literal) c =>
          match acc.2 with
          | some r => pure (acc.1, some r)
          | none =>
            match c.kind with
            | "object" | ":" => pure acc
            | "delegation_specifier" => do
              let d ← Delegation.new fuel c
              pure (acc.1 ++ [d], none)
            | "class_body" => do
              let b ← ClassBody.new_class_body fuel c
              pure (acc.1, some (.LitObject b acc.1))
            | _ => .error (unhandled "Literal" "unhandled node" c))
        ([], none)
      ctxOpt acc.2 ("[Literal] no class_body at " ++ n.startPos.fmt)
    | "lambda_literal" => do
      let acc ← n.children.foldlM
        (fun (acc : Option (List Statement) × Option (List LambdaParameter)) c =>
          match c.kind with
          | "\x7b" | "->" | "\x7d" => pure acc
          | "statements" => do
            let s ← get_statements fuel c
            pure (some s, acc.2)
          | "lambda_parameters" => do
            let p ← literalGetParameters fuel c
            pure (acc.1, some p)
          | _ => .error (unhandled "LambdaLiteral" "unhandled child" c))
        (none, none)
      .ok (.LitLambda acc.1 acc.2)
    | "null" => .ok .LitNull
    | _ => .error (unhandled "Literal" "unhandled node" n)

/-- `getter.rs::Getter::new`. `node.child(0)`, whatever its kind, has its
children read back as modifiers when present. -/
def Getter.new : Nat → CST → Except String Getter
  | 0, _ => .error fuelMsg
  | fuel+1, n => do
    let modifiers ←
      match n.child 0 with
      | some m => do
        let mods ← m.children.mapM Modifier.new
        pure (some mods)
      | none => pure none
    let acc ← n.children.foldlM
      (fun (acc : Option FunctionBody) c =>
        match c.kind with
        | "get" | "(" | ")" | "modifiers" => pure acc
        | "function_body" => do
          let b ← FunctionBody.new fuel c
          pure (some b)
        | _ => .error (unhandled "Getter" "unhandled child" c))
      none
    .ok (.Getter modifiers acc)

/-- `getter.rs::Setter::new`. -/
def Setter.new : Nat → CST → Except String Setter
  | 0, _ => .error fuelMsg
  | fuel+1, n => do
    let modifiers ←
      match n.child 0 with
      | some m => do
        let mods ← m.children.mapM Modifier.new
        pure (some mods)
      | none => pure none
    let acc ← n.children.foldlM
      (fun (acc : Option ParameterWithOptionalType × Option FunctionBody) c =>
        match c.kind with
        | "set" | "(" | ")" | "modifiers" => pure acc
        | "function_body" => do
          let b ← FunctionBody.new fuel c
          pure (acc.1, some b)
        | "parameter_with_optional_type" => do
          let p ← ParameterWithOptionalType.new fuel c
          pure (some p, acc.2)
        | _ => .error (unhandled "Setter" "unhandled child" c))
      (none, none)
    .ok (.Setter modifiers acc.1 acc.2)

/-- `function.rs::FunctionBody::new` (returns at the first `=` or `{`
child, building an expression body from the sibling after `=` or a block
body from the sibling after `{`; falls through to `bail!("TODO")`). -/
def FunctionBody.new : Nat → CST → Except String FunctionBody
  | 0, _ => .error fuelMsg
  | fuel+1, n => do
    let acc ← n.childrenWithSibs.foldlM
      (fun (acc : Option FunctionBody) cs => do
        let (c, _, cNext) := cs
        match acc with
        | some r => pure (some r)
        | none =>
          if c.kind == "=" then
            match cNext with
            | none => .error ("[FunctionBody] no expression at " ++ spanFmt n)
            | some nx => do
              let e ← Expression.new fuel nx (some c)
              pure (some (.FBExpression e))
          else if c.kind == "\x7b" then
            match cNext with
            | none => .error ("[FunctionBody] no statements at " ++ spanFmt n)
            | some nx => do
              let stmts ← get_statements fuel nx
              pure (some (.FBBlock stmts))
          else pure none)
      none
    ctxOpt acc "TODO"

/-- `function.rs::Parameter::new` (unknown child kinds are silently
skipped: the loop is two independent `if`s). -/
def Parameter.new : Nat → CST → Except String Parameter
  | 0, _ => .error fuelMsg
  | fuel+1, n => do
    let acc ← n.childrenWithSibs.foldlM
      (fun (acc : Option String × Option Typ) cs => do
        let (c, cPrev, _) := cs
        let acc ← pure (if c.kind == "simple_identifier" then (some c.text, acc.2) else acc)
        if TYPES.contains c.kind then do
          let t ← Typ.new fuel c cPrev
          pure (acc.1, some t)
        else pure acc)
      (none, none)
    let name ← ctxOpt acc.1 ("[Parameter] no identifier found at " ++ spanFmt n)
    let t ← ctxOpt acc.2 ("[Parameter] no type found at " ++ spanFmt n)
    .ok (.Parameter name t)

/-- `function.rs::ParameterWithOptionalType::new`. -/
def ParameterWithOptionalType.new : Nat → CST → Except String ParameterWithOptionalType
  | 0, _ => .error fuelMsg
  | fuel+1, n => do
    let acc ← n.childrenWithSibs.foldlM
      (fun (acc : Option String × Option Typ) cs => do
        let (c, cPrev, _) := cs
        match c.kind with
        | "simple_identifier" => pure (some c.text, acc.2)
        | k =>
          if TYPES.contains k then do
            let t ← Typ.new fuel c cPrev
            pure (acc.1, some t)
          else .error (unhandled "ParameterWithOptionalType" "unhandled child" c))
      (none, none)
    let name ← ctxOpt acc.1
      ("[ParameterWithOptionalType] no identifier found at " ++ n.startPos.fmt)
    .ok (.ParameterWithOptionalType name acc.2)

/-- `function.rs::Function::new` (a sequence of independent `if`s; unknown
child kinds are silently skipped). -/
def Function.new : Nat → CST → Except String Function
  | 0, _ => .error fuelMsg
  | fuel+1, n => do
    let acc ← n.children.foldlM
      (fun (acc : FunctionNewAcc) c => do
        let acc ←
          if c.kind == "modifiers" then do
            let mods ← c.children.mapM (fun m =>
              match m.kind with
              | "annotation" => .ok (FunctionModifier.Annot m.text)
              | "member_modifier" => .ok (FunctionModifier.Member m.text)
              | "visibility_modifier" => .ok (FunctionModifier.Visibility m.text)
              | "function_modifier" => .ok (FunctionModifier.Function m.text)
              | "inheritance_modifier" => .ok (FunctionModifier.Inheritance m.text)
              | k => .error ("unknown modifier " ++ k))
            pure { acc with modifiers := acc.modifiers ++ mods }
          else pure acc
        let acc ← pure (if c.kind == "simple_identifier" then { acc with name := some c.text } else acc)
        let acc ←
          if c.kind == "function_value_parameters" then do
            let ps ← c.children.foldlM (fun (ps : List Parameter) pc =>
              if pc.kind == "parameter" then do
                let p ← Parameter.new fuel pc
                pure (ps ++ [p])
              else pure ps) []
            pure { acc with parameters := acc.parameters ++ ps }
          else pure acc
        let acc ← pure
          (if c.kind == "user_type" || c.kind == "nullable_type" then
            { acc with return_type := some c.text }
          else acc)
        if c.kind == "function_body" then do
          let b ← FunctionBody.new fuel c
          pure { acc with body := some b }
        else pure acc)
      {}
    let name ← ctxOpt acc.name "no name found for function"
    .ok (.Function acc.modifiers name acc.parameters acc.return_type acc.body)

/-- `property.rs::PropertyDelegate::new` (returns at the first child whose
kind is in EXPRESSIONS; other children are skipped without error). -/
def PropertyDelegate.new : Nat → CST → Except String PropertyDelegate
  | 0, _ => .error fuelMsg
  | fuel+1, n => do
    let acc ← n.childrenWithSibs.foldlM
      (fun (acc : Option PropertyDelegate) cs => do
        let (c, cPrev, _) := cs
        match acc with
        | some r => pure (some r)
        | none =>
          if EXPRESSIONS.contains c.kind then do
            let e ← Expression.new fuel c cPrev
            pure (some (.PropertyDelegate e))
          else pure none)
      none
    ctxOpt acc ("[PropertyDelegate] no expression at " ++ spanFmt n)

/-- `property.rs::Property::new`. `next` is `node.next_sibling()`: a
getter or setter found there OVERWRITES one found among the children
("getter and setter can be both inside of property_declaration and
outside!" says the source comment). -/
def Property.new : Nat → CST → Option CST → Except String Property
  | 0, _, _ => .error fuelMsg
  | fuel+1, n, next => do
    let acc ← n.childrenWithSibs.foldlM
      (fun (acc : PropertyNewAcc) cs => do
        let (c, cPrev, _) := cs
        match c.kind with
        | "." | "=" => pure acc
        | "modifiers" => do
          let mods ← c.children.mapM Modifier.new
          pure { acc with modifiers := acc.modifiers ++ mods }
        | "var" => pure { acc with mutability := some .Var }
        | "val" => pure { acc with mutability := some .Val }
        | "user_type" | "nullable_type" => do
          let t ← Typ.new fuel c cPrev
          pure { acc with extension_type := some t }
        | "variable_declaration" => do
          let v ← VariableDeclaration.new fuel c
          pure { acc with variable_declaration := some (.PVDSingle v) }
        | "multi_variable_declaration" => do
          let m ← MultiVariableDeclaration.new fuel c
          pure { acc with variable_declaration := some (.PVDMulti m) }
        | "property_delegate" => do
          let d ← PropertyDelegate.new fuel c
          pure { acc with delegate := some d }
        | "getter" => do
          let g ← Getter.new fuel c
          pure { acc with getter := some g }
        | "setter" => do
          let s ← Setter.new fuel c
          pure { acc with setter := some s }
        | k =>
          if EXPRESSIONS.contains k then do
            let e ← Expression.new fuel c cPrev
            pure { acc with expression := some e }
          else .error (unhandled "Property" "unhandled child" c))
      {}
    let acc ←
      match next with
      | some nx =>
        match nx.kind with
        | "getter" => do
          let g ← Getter.new fuel nx
          pure { acc with getter := some g }
        | "setter" => do
          let s ← Setter.new fuel nx
          pure { acc with setter := some s }
        | _ => pure acc
      | none => pure acc
    let vd ← ctxOpt acc.variable_declaration "[Property] no variable declaration found"
    let mu ← ctxOpt acc.mutability "[Property] no mutability modifier found"
    .ok (.Property acc.modifiers vd acc.extension_type mu acc.expression
      acc.delegate acc.getter acc.setter)

/-- `assignment.rs::Assignment::new`. The left side comes from inside a
`directly_assignable_expression` child; any child whose kind parses as an
assignment operator sets the operator; everything else is skipped. -/
def Assignment.new : Nat → CST → Except String Assignment
  | 0, _ => .error fuelMsg
  | fuel+1, n => do
    let acc ← n.childrenWithSibs.foldlM
      (fun (acc : AssignmentNewAcc) cs => do
        let (c, cPrev, _) := cs
        if c.kind == "directly_assignable_expression" then
          c.childrenWithSibs.foldlM (fun (acc : AssignmentNewAcc) ics => do
            let (ic, icPrev, _) := ics
            if EXPRESSIONS.contains ic.kind then do
              let e ← Expression.new fuel ic icPrev
              pure { acc with left := some e }
            else pure acc) acc
        else if EXPRESSIONS.contains c.kind then do
          let e ← Expression.new fuel c cPrev
          pure { acc with right := some e }
        else
          match AssignmentOperator.new c with
          | .ok op => pure { acc with operator := some op }
          | .error _ => pure acc)
      {}
    let left ← ctxOpt acc.left ("[Assignment] no left expression found at " ++ spanFmt n)
    let op ← ctxOpt acc.operator ("[Assignment] no operator found at " ++ spanFmt n)
    let right ← ctxOpt acc.right ("[Assignment] no right expression found at " ++ spanFmt n)
    .ok (.Assignment op left right)

/-- `statement.rs::get_statements`. -/
def get_statements : Nat → CST → Except String (List Statement)
  | 0, _ => .error fuelMsg
  | fuel+1, n =>
    n.childrenWithSibs.foldlM
      (fun (acc : List Statement) cs => do
        let (c, cPrev, cNext) := cs
        match c.kind with
        | "line_comment" => pure acc
        | "property_declaration" => do
          let p ← Property.new fuel c cNext
          pure (acc ++ [.StPropertyDeclaration p])
        | "function_declaration" => do
          let f ← Function.new fuel c
          pure (acc ++ [.StFunction f])
        | "assignment" => do
          let a ← Assignment.new fuel c
          pure (acc ++ [.StAssignment a])
        | "while_statement" => do
          let s ← while_statement fuel c
          pure (acc ++ [s])
        | "for_statement" => do
          let s ← for_statement fuel c
          pure (acc ++ [s])
        | k =>
          if EXPRESSIONS.contains k then do
            let e ← Expression.new fuel c cPrev
            pure (acc ++ [.StExpression e])
          else .error (unhandled "get_statementes" "unhandled child" c)) []

/-- `statement.rs::while_statement`. A trailing `;` means no body; else
the body is built from the last child, with a FAILED body build silently
becoming None (`.ok()`). -/
def while_statement : Nat → CST → Except String Statement
  | 0, _ => .error fuelMsg
  | fuel+1, n =>
    match n.childFromEnd 1 with
    | none => .error ("[Statement::While] no child at " ++ n.startPos.fmt)
    | some last => do
      let e ← do
        let cn ← ctxOpt (n.child 2) ("[Statement::While] no child at " ++ n.startPos.fmt)
        Expression.new fuel cn (n.child 1)
      if last.kind == ";" then
        .ok (.StWhile e none)
      else
        .ok (.StWhile e (ControlStructureBody.new fuel last).toOption)

/-- `statement.rs::for_statement`. The parameter is the 5th child from the
end, the iterated expression the 3rd from the end; a trailing `)` means no
body, else the body is the last child with a failed build becoming None. -/
def for_statement : Nat → CST → Except String Statement
  | 0, _ => .error fuelMsg
  | fuel+1, n =>
    match n.childFromEnd 1 with
    | none => .error ("[Statement::For] no child at " ++ n.startPos.fmt)
    | some last => do
      let pc ← ctxOpt (n.childFromEnd 5) ("[Statement::For] no child at " ++ n.startPos.fmt)
      let param ←
        match pc.kind with
        | "variable_declaration" => do
          let v ← VariableDeclaration.new fuel pc
          pure (StmtNode.FPVariableDeclaration v)
        | "multi_variable_declaration" => do
          let m ← MultiVariableDeclaration.new fuel pc
          pure (StmtNode.FPMultiVariableDeclaration m)
        | _ => .error (unhandled "Statement::For" "unhandled child" pc)
      let en ← ctxOpt (n.childFromEnd 3) ("[Statement::For] no child at " ++ n.startPos.fmt)
      let e ← Expression.new fuel en (n.childFromEnd 4)
      if last.kind == ")" then
        .ok (.StFor e param none)
      else
        .ok (.StFor e param (ControlStructureBody.new fuel last).toOption)

/-- `expression/mod.rs::CallSuffix::new`. A `type_arguments` child becomes
a one-element argument list (source comment: only one type argument with
multiple type projections). -/
def CallSuffix.new : Nat → CST → Except String CallSuffix
  | 0, _ => .error fuelMsg
  | fuel+1, n => do
    let acc ← n.children.foldlM
      (fun (acc : Option (List Argument) × Option AnnotatedLambda) c =>
        match c.kind with
        | "value_arguments" => do
          let args ← get_value_arguments fuel c
          pure (some args, acc.2)
        | "type_arguments" => do
          let a ← get_type_argument fuel c
          pure (some [a], acc.2)
        | "annotated_lambda" => do
          let l ← AnnotatedLambda.new fuel c
          pure (acc.1, some l)
        | _ => .error (unhandled "CallSuffix" "unhandled child" c))
      (none, none)
    .ok (.CallSuffix acc.1 acc.2)

/-- `expression/mod.rs::call_expression`. -/
def call_expression : Nat → CST → Except String Expression
  | 0, _ => .error fuelMsg
  | fuel+1, n => do
    let c0 ← ctxOpt (n.child 0) ("[Expression::Call] no expression found at " ++ n.startPos.fmt)
    let e ← Expression.new fuel c0 none
    let c1 ← ctxOpt (n.child 1) ("[Expression::Call] no expression found at " ++ n.startPos.fmt)
    let s ← CallSuffix.new fuel c1
    .ok (.Call e s)

/-- `expression/mod.rs::navigation_expression` (its missing-child messages
reuse the `[Expression::Call]` text). -/
def navigation_expression : Nat → CST → Except String Expression
  | 0, _ => .error fuelMsg
  | fuel+1, n => do
    let c0 ← ctxOpt (n.child 0) ("[Expression::Call] no expression found at " ++ n.startPos.fmt)
    let e ← Expression.new fuel c0 none
    let c1 ← ctxOpt (n.child 1) ("[Expression::Call] no expression found at " ++ n.startPos.fmt)
    let s ← NavigationSuffix.new c1
    .ok (.Navigation e s)

/-- `expression/mod.rs::ControlStructureBody::new`. A failing statement
build is silently replaced by the empty list (`unwrap_or_default`). -/
def ControlStructureBody.new : Nat → CST → Except String ControlStructureBody
  | 0, _ => .error fuelMsg
  | fuel+1, n => do
    let c0 ← ctxOpt (n.child 0) ("[ControlStructureBody] no child at " ++ n.startPos.fmt)
    match c0.kind with
    | "\x7b" => do
      let c1 ← ctxOpt (n.child 1) ("[ControlStructureBody] no child at " ++ n.startPos.fmt)
      .ok (.ControlStructureBody ((get_statements fuel c1).toOption.getD []))
    | _ => .ok (.ControlStructureBody ((get_statements fuel c0).toOption.getD []))

/-- `expression/mod.rs::if_expression`. -/
def if_expression : Nat → CST → Except String Expression
  | 0, _ => .error fuelMsg
  | fuel+1, n => do
    let c2 ← ctxOpt (n.child 2) ("[Expression::If] no expression found at " ++ n.startPos.fmt)
    let e ← Expression.new fuel c2 (n.child 1)
    let c4 ← ctxOpt (n.child 4)
      ("[Expression::If] no control structure body found at " ++ n.startPos.fmt)
    let b ← ControlStructureBody.new fuel c4
    .ok (.If e b)

/-- `expression/mod.rs::prefix_expression` (the source misspells
"unknonwn"). -/
def prefix_expression : Nat → CST → Except String Expression
  | 0, _ => .error fuelMsg
  | fuel+1, n => do
    let c0 ← ctxOpt (n.child 0) ("[Expression::Prefix] no child at " ++ n.startPos.fmt)
    let alo ←
      match c0.kind with
      | "annotation" => pure (some c0.text, none, none)
      | "label" => do
        let l ← Label.new c0
        pure ((none : Option String), some l, (none : Option PrefixUnaryOperator))
      | "++" => pure (none, none, some PrefixUnaryOperator.Increment)
      | "--" => pure (none, none, some PrefixUnaryOperator.Decrement)
      | "-" => pure (none, none, some PrefixUnaryOperator.Minus)
      | "+" => pure (none, none, some PrefixUnaryOperator.Plus)
      | "!" => pure (none, none, some PrefixUnaryOperator.Negation)
      | _ => .error ("[Expression::Prefix] unknonwn child at " ++ c0.startPos.fmt)
    let c1 ← ctxOpt (n.child 1) ("[Expression::Prefix] no expression found at " ++ n.startPos.fmt)
    let e ← Expression.new fuel c1 (some c0)
    .ok (.PrefixOp alo.1 alo.2.1 alo.2.2 e)

/-- `expression/mod.rs::postfix_expression` (same misspelling). -/
def postfix_expression : Nat → CST → Except String Expression
  | 0, _ => .error fuelMsg
  | fuel+1, n => do
    let c1 ← ctxOpt (n.child 1) ("[Expression::Postfix] no child at " ++ n.startPos.fmt)
    let op ←
      match c1.kind with
      | "++" => pure PostfixUnaryOperator.Increment
      | "--" => pure PostfixUnaryOperator.Decrement
      | "!!" => pure PostfixUnaryOperator.NullAssertion
      | _ => .error ("[Expression::Postfix] unknonwn child at " ++ c1.startPos.fmt)
    let c0 ← ctxOpt (n.child 0) ("[Expression::Postfix] no expression found at " ++ n.startPos.fmt)
    let e ← Expression.new fuel c0 none
    .ok (.PostfixOp op e)

/-- `expression/mod.rs::equality_expression`. -/
def equality_expression : Nat → CST → Except String Expression
  | 0, _ => .error fuelMsg
  | fuel+1, n => do
    let c0 ← ctxOpt (n.child 0) ("[Expression::Equality] no expression found at " ++ n.startPos.fmt)
    let l ← Expression.new fuel c0 none
    let c1 ← ctxOpt (n.child 1) ("[Expression::Equality] no operator found at " ++ n.startPos.fmt)
    let op ← EqualityOperator.new c1
    let c2 ← ctxOpt (n.child 2) ("[Expression::Equality] no expression found at " ++ n.startPos.fmt)
    let r ← Expression.new fuel c2 (n.child 1)
    .ok (.Equality l op r)

/-- `expression/mod.rs::multiplicative_expression`. -/
def multiplicative_expression : Nat → CST → Except String Expression
  | 0, _ => .error fuelMsg
  | fuel+1, n => do
    let c0 ← ctxOpt (n.child 0) ("[Expression::Multiplicative] no expression found at " ++ n.startPos.fmt)
    let l ← Expression.new fuel c0 none
    let c1 ← ctxOpt (n.child 1) ("[Expression::Multiplicative] no operator found at " ++ n.startPos.fmt)
    let op ← MultiplicativeOperator.new c1
    let c2 ← ctxOpt (n.child 2) ("[Expression::Multiplicative] no expression found at " ++ n.startPos.fmt)
    let r ← Expression.new fuel c2 (n.child 1)
    .ok (.Multiplicative l op r)

/-- `expression/mod.rs::comparison_expression`. -/
def comparison_expression : Nat → CST → Except String Expression
  | 0, _ => .error fuelMsg
  | fuel+1, n => do
    let c0 ← ctxOpt (n.child 0) ("[Expression::Comparison] no expression found at " ++ n.startPos.fmt)
    let l ← Expression.new fuel c0 none
    let c1 ← ctxOpt (n.child 1) ("[Expression::Comparison] no operator found at " ++ n.startPos.fmt)
    let op ← ComparisonOperator.new c1
    let c2 ← ctxOpt (n.child 2) ("[Expression::Comparison] no expression found at " ++ n.startPos.fmt)
    let r ← Expression.new fuel c2 (n.child 1)
    .ok (.Comparison l op r)

/-- `expression/mod.rs::disjunction_expression`. -/
def disjunction_expression : Nat → CST → Except String Expression
  | 0, _ => .error fuelMsg
  | fuel+1, n => do
    let c0 ← ctxOpt (n.child 0) ("[Expression::Disjunction] no expression found at " ++ n.startPos.fmt)
    let l ← Expression.new fuel c0 none
    let c2 ← ctxOpt (n.child 2) ("[Expression::Disjunction] no expression found at " ++ n.startPos.fmt)
    let r ← Expression.new fuel c2 (n.child 1)
    .ok (.Disjunction l r)

/-- `expression/mod.rs::conjunction_expression`. -/
def conjunction_expression : Nat → CST → Except String Expression
  | 0, _ => .error fuelMsg
  | fuel+1, n => do
    let c0 ← ctxOpt (n.child 0) ("[Expression::Conjunction] no expression found at " ++ n.startPos.fmt)
    let l ← Expression.new fuel c0 none
    let c2 ← ctxOpt (n.child 2) ("[Expression::Conjunction] no expression found at " ++ n.startPos.fmt)
    let r ← Expression.new fuel c2 (n.child 1)
    .ok (.Conjunction l r)

/-- `expression/mod.rs::additive_expression`, transcribed verbatim: its
error messages say `[Expression::Additive]` but the value it builds is
`Expression::Conjunction`, not `Expression::Additive`. -/
def additive_expression : Nat → CST → Except String Expression
  | 0, _ => .error fuelMsg
  | fuel+1, n => do
    let c0 ← ctxOpt (n.child 0) ("[Expression::Additive] no expression found at " ++ n.startPos.fmt)
    let l ← Expression.new fuel c0 none
    let c2 ← ctxOpt (n.child 2) ("[Expression::Additive] no expression found at " ++ n.startPos.fmt)
    let r ← Expression.new fuel c2 (n.child 1)
    .ok (.Conjunction l r)

/-- `expression/mod.rs::infix_expression`. -/
def infix_expression : Nat → CST → Except String Expression
  | 0, _ => .error fuelMsg
  | fuel+1, n => do
    let c0 ← ctxOpt (n.child 0) ("[Expression::Infix] no expression found at " ++ n.startPos.fmt)
    let l ← Expression.new fuel c0 none
    let c1 ← ctxOpt (n.child 1) ("[Expression::Infix] no middle found at " ++ n.startPos.fmt)
    let c2 ← ctxOpt (n.child 2) ("[Expression::Infix] no expression found at " ++ n.startPos.fmt)
    let r ← Expression.new fuel c2 (n.child 1)
    .ok (.InfixOp l c1.text r)

/-- `expression/mod.rs::as_expression`. -/
def as_expression : Nat → CST → Except String Expression
  | 0, _ => .error fuelMsg
  | fuel+1, n => do
    let c0 ← ctxOpt (n.child 0) ("[Expression::As] too little children at " ++ n.startPos.fmt)
    let l ← Expression.new fuel c0 none
    let c2 ← ctxOpt (n.child 2) ("[Expression::As] too little children at " ++ n.startPos.fmt)
    let r ← Expression.new fuel c2 (n.child 1)
    .ok (.As l r)

/-- `expression/mod.rs::elvis_expression`. -/
def elvis_expression : Nat → CST → Except String Expression
  | 0, _ => .error fuelMsg
  | fuel+1, n => do
    let c0 ← ctxOpt (n.child 0) ("[Expression::Elvis] too little children at " ++ n.startPos.fmt)
    let l ← Expression.new fuel c0 none
    let c2 ← ctxOpt (n.child 2) ("[Expression::Elvis] too little children at " ++ n.startPos.fmt)
    let r ← Expression.new fuel c2 (n.child 1)
    .ok (.Elvis l r)

/-- `expression/mod.rs::range_expression`. -/
def range_expression : Nat → CST → Except String Expression
  | 0, _ => .error fuelMsg
  | fuel+1, n => do
    let c0 ← ctxOpt (n.child 0) ("[Expression::Range] too little children at " ++ n.startPos.fmt)
    let l ← Expression.new fuel c0 none
    let c2 ← ctxOpt (n.child 2) ("[Expression::Range] too little children at " ++ n.startPos.fmt)
    let r ← Expression.new fuel c2 (n.child 1)
    .ok (.Range l r)

/-- `expression/mod.rs::check_expression`. -/
def check_expression : Nat → CST → Except String Expression
  | 0, _ => .error fuelMsg
  | fuel+1, n => do
    let opn ← ctxOpt (n.child 1) ("[Expression::Check] too little children at " ++ n.startPos.fmt)
    match opn.kind with
    | "in" => do
      let c0 ← ctxOpt (n.child 0) ("[Expression::Check] too little children at " ++ n.startPos.fmt)
      let l ← Expression.new fuel c0 none
      let c2 ← ctxOpt (n.child 2) ("[Expression::Check] too little children at " ++ n.startPos.fmt)
      let r ← Expression.new fuel c2 (n.child 1)
      .ok (.CheckIn l r)
    | "!in" => do
      let c0 ← ctxOpt (n.child 0) ("[Expression::Check] too little children at " ++ n.startPos.fmt)
      let l ← Expression.new fuel c0 none
      let c2 ← ctxOpt (n.child 2) ("[Expression::Check] too little children at " ++ n.startPos.fmt)
      let r ← Expression.new fuel c2 (n.child 1)
      .ok (.CheckNotIn l r)
    | "is" => do
      let c0 ← ctxOpt (n.child 0) ("[Expression::Check] too little children at " ++ n.startPos.fmt)
      let l ← Expression.new fuel c0 none
      let c2 ← ctxOpt (n.child 2) ("[Expression::Check] too little children at " ++ n.startPos.fmt)
      let r ← Typ.new fuel c2 (n.child 1)
      .ok (.CheckIs l r)
    | "!is" => do
      let c0 ← ctxOpt (n.child 0) ("[Expression::Check] too little children at " ++ n.startPos.fmt)
      let l ← Expression.new fuel c0 none
      let c2 ← ctxOpt (n.child 2) ("[Expression::Check] too little children at " ++ n.startPos.fmt)
      let r ← Typ.new fuel c2 (n.child 1)
      .ok (.CheckNotIs l r)
    | op => .error ("[Expression::Check] unhandled operator " ++ op ++ " at " ++ n.startPos.fmt)

/-- `expression/mod.rs::WhenSubject::new` (the expression is the
second-to-last child). -/
def WhenSubject.new : Nat → CST → Except String WhenSubject
  | 0, _ => .error fuelMsg
  | fuel+1, n => do
    let cn ← ctxOpt (n.childFromEnd 2) ("[WhenSubject] no child at " ++ n.startPos.fmt)
    let e ← Expression.new fuel cn (n.childFromEnd 3)
    .ok (.WhenSubject e)

/-- `expression/mod.rs::WhenCondition::new`. -/
def WhenCondition.new : Nat → CST → Except String WhenCondition
  | 0, _ => .error fuelMsg
  | fuel+1, n => do
    let c0 ← ctxOpt (n.child 0) ("[WhenCondition] no child 0 at " ++ n.startPos.fmt)
    match c0.kind with
    | "range_test" => do
      let c1 ← ctxOpt (c0.child 1) ("[WhenCondition] no child 1 at " ++ n.startPos.fmt)
      let e ← Expression.new fuel c1 (c0.child 0)
      .ok (.WCRangeTest e)
    | "type_test" => do
      let c1 ← ctxOpt (c0.child 1) ("[WhenCondition] no child 1 at " ++ n.startPos.fmt)
      let t ← Typ.new fuel c1 (c0.child 0)
      .ok (.WCTypeTest t)
    | _ => do
      let e ← Expression.new fuel c0 none
      .ok (.WCExpression e)

/-- `expression/mod.rs::WhenEntry::new` (unknown children skipped). -/
def WhenEntry.new : Nat → CST → Except String WhenEntry
  | 0, _ => .error fuelMsg
  | fuel+1, n => do
    let acc ← n.children.foldlM
      (fun (acc : Option WhenCondition × Option ControlStructureBody) c =>
        match c.kind with
        | "when_condition" => do
          let wc ← WhenCondition.new fuel c
          pure (some wc, acc.2)
        | "control_structure_body" => do
          let b ← ControlStructureBody.new fuel c
          pure (acc.1, some b)
        | _ => pure acc)
      (none, none)
    let b ← ctxOpt acc.2 ("[WhenEntry] no body at " ++ n.startPos.fmt)
    .ok (.WhenEntry acc.1 b)

/-- `expression/mod.rs::when_expression` (unknown children skipped). -/
def when_expression : Nat → CST → Except String Expression
  | 0, _ => .error fuelMsg
  | fuel+1, n => do
    let acc ← n.children.foldlM
      (fun (acc : Option WhenSubject × List WhenEntry) c =>
        match c.kind with
        | "when_subject" => do
          let s ← WhenSubject.new fuel c
          pure (some s, acc.2)
        | "when_entry" => do
          let e ← WhenEntry.new fuel c
          pure (acc.1, acc.2 ++ [e])
        | _ => pure acc)
      (none, [])
    .ok (.When acc.1 acc.2)

/-- `expression/mod.rs::indexing_expression`. -/
def indexing_expression : Nat → CST → Except String Expression
  | 0, _ => .error fuelMsg
  | fuel+1, n => do
    let c0 ← ctxOpt (n.child 0) ("[Expression::Indexing] no child at " ++ n.startPos.fmt)
    let e ← Expression.new fuel c0 none
    let c1 ← ctxOpt (n.child 1) ("[Expression::Indexing] no child at " ++ n.startPos.fmt)
    let s ← IndexingSuffix.new fuel c1
    .ok (.Indexing e s)

/-- `expression/mod.rs::IndexingSuffix::new`. -/
def IndexingSuffix.new : Nat → CST → Except String IndexingSuffix
  | 0, _ => .error fuelMsg
  | fuel+1, n => do
    let es ← n.childrenWithSibs.foldlM
      (fun (acc : List Expression) cs => do
        let (c, cPrev, _) := cs
        match c.kind with
        | "[" | "," | "]" => pure acc
        | _ => do
          let e ← Expression.new fuel c cPrev
          pure (acc ++ [e]))
      []
    .ok (.IndexingSuffix es)

/-- `expression/try.rs::expression`. -/
def tryExpression : Nat → CST → Except String Expression
  | 0, _ => .error fuelMsg
  | fuel+1, n => do
    let c2 ← ctxOpt (n.child 2) ("[Expression::Try] no child at " ++ n.startPos.fmt)
    let block ← get_statements fuel c2
    let acc ← n.children.foldlM
      (fun (acc : List CatchBlock × Option FinallyBlock) c =>
        match c.kind with
        | "try" | "\x7b" | "\x7d" | "statements" => pure acc
        | "catch_block" => do
          let cb ← CatchBlock.new fuel c
          pure (acc.1 ++ [cb], acc.2)
        | "finally_block" => do
          let fb ← FinallyBlock.new fuel c
          pure (acc.1, some fb)
        | _ => .error (unhandled "Expression::Try" "unhandled child" c))
      ([], none)
    .ok (.Try block acc.1 acc.2)

/-- `expression/try.rs::CatchBlock::new` (child positions counted from the
end; the shape with trailing `statements` has them 2 from the end). -/
def CatchBlock.new : Nat → CST → Except String CatchBlock
  | 0, _ => .error fuelMsg
  | fuel+1, n => do
    let sn ← ctxOpt (n.childFromEnd 2) ("[CatchBlock] no child at " ++ n.startPos.fmt)
    match sn.kind with
    | "statements" => do
      let idn ← ctxOpt (n.childFromEnd 7) ("[CatchBlock] no child at " ++ n.startPos.fmt)
      let tn ← ctxOpt (n.childFromEnd 5) ("[CatchBlock] no child at " ++ n.startPos.fmt)
      let t ← Typ.new fuel tn (n.childFromEnd 6)
      let bn ← ctxOpt (n.childFromEnd 2) ("[CatchBlock] no child at " ++ n.startPos.fmt)
      let block ← get_statements fuel bn
      .ok (.CatchBlock idn.text t block)
    | _ => do
      let idn ← ctxOpt (n.childFromEnd 6) ("[CatchBlock] no child at " ++ n.startPos.fmt)
      let tn ← ctxOpt (n.childFromEnd 4) ("[CatchBlock] no child at " ++ n.startPos.fmt)
      let t ← Typ.new fuel tn (n.childFromEnd 5)
      .ok (.CatchBlock idn.text t [])

/-- `expression/try.rs::FinallyBlock::new`. -/
def FinallyBlock.new : Nat → CST → Except String FinallyBlock
  | 0, _ => .error fuelMsg
  | fuel+1, n => do
    let c0 ← ctxOpt (n.child 0) ("[FinallyBlock] no child at " ++ n.startPos.fmt)
    let block ← get_statements fuel c0
    .ok (.FinallyBlock block)

/-- `expression/jump.rs::expression`. -/
def jumpExpression : Nat → CST → Except String Expression
  | 0, _ => .error fuelMsg
  | fuel+1, n => do
    let c0 ← ctxOpt (n.child 0) ("[Expression::Jump] no child at " ++ n.startPos.fmt)
    match c0.kind with
    | "throw" => do
      let c1 ← ctxOpt (n.child 1) ("[Expression::Jump] no child at " ++ n.startPos.fmt)
      let e ← Expression.new fuel c1 (some c0)
      .ok (.JumpThrow e)
    | "return" => .ok (.JumpReturn none none)
    | "return@" => do
      let c1 ← ctxOpt (n.child 1) ("[Expression::Jump] no child at " ++ n.startPos.fmt)
      let l ← Label.new c1
      let e ←
        match n.child 2 with
        | some c2 => do
          let e ← Expression.new fuel c2 (n.child 1)
          pure (some e)
        | none => pure none
      .ok (.JumpReturn (some l) e)
    | "continue" => .ok (.JumpContinue none)
    | "continue@" => do
      let c1 ← ctxOpt (n.child 1) ("[Expression::Jump] no child at " ++ n.startPos.fmt)
      let l ← Label.new c1
      .ok (.JumpContinue (some l))
    | "break" => .ok (.JumpBreak none)
    | "break@" => do
      let c1 ← ctxOpt (n.child 1) ("[Expression::Jump] no child at " ++ n.startPos.fmt)
      let l ← Label.new c1
      .ok (.JumpBreak (some l))
    | j => .error ("[Expression::Jump] unhandled jump " ++ j ++ " at " ++ n.startPos.fmt)

/-- `expression/mod.rs::Expression::new`: dispatch on the node kind.
`prev` is the node's previous sibling, forwarded to `Type::new` by the
`user_type` arm. -/
def Expression.new : Nat → CST → Option CST → Except String Expression
  | 0, _, _ => .error fuelMsg
  | fuel+1, n, prev =>
    match n.kind with
    | "call_expression" => call_expression fuel n
    | "navigation_expression" => navigation_expression fuel n
    | "if_expression" => if_expression fuel n
    | "disjunction_expression" => disjunction_expression fuel n
    | "conjunction_expression" => conjunction_expression fuel n
    | "additive_expression" => additive_expression fuel n
    | "equality_expression" => equality_expression fuel n
    | "multiplicative_expression" => multiplicative_expression fuel n
    | "comparison_expression" => comparison_expression fuel n
    | "prefix_expression" => prefix_expression fuel n
    | "postfix_expression" => postfix_expression fuel n
    | "simple_identifier" => .ok (.Identifier n.text)
    | "try_expression" => tryExpression fuel n
    | "infix_expression" => infix_expression fuel n
    | "as_expression" => as_expression fuel n
    | "elvis_expression" => elvis_expression fuel n
    | "range_expression" => range_expression fuel n
    | "check_expression" => check_expression fuel n
    | "super_expression" => .ok .Super
    | "callable_reference" => callable_reference n
    | "boolean_literal" | "string_literal" | "integer_literal" | "object_literal"
    | "character_literal" | "lambda_literal" | "long_literal" | "real_literal"
    | "hex_literal" | "null" => do
      let l ← Literal.new fuel n
      .ok (.Literal l)
    | "when_expression" => when_expression fuel n
    | "user_type" => do
      let t ← Typ.new fuel n prev
      .ok (.Typ t)
    | "jump_expression" => jumpExpression fuel n
    | "directly_assignable_expression" => do
      let c0 ← ctxOpt (n.child 0)
        ("[Expression::DirectlyAssignable] no child at " ++ n.startPos.fmt)
      let e ← Expression.new fuel c0 none
      .ok (.DirectlyAssignable e)
    | "parenthesized_expression" => do
      let c1 ← ctxOpt (n.child 1)
        ("[Expression::Parenthesized] no child at " ++ n.startPos.fmt)
      let e ← Expression.new fuel c1 (n.child 0)
      .ok (.Parenthesized e)
    | "indexing_expression" => indexing_expression fuel n
    | "this_expression" => this_expression n
    | _ => .error (unhandled "Expression" "unhandled child" n)

/-- `object.rs::Object::new`. -/
def Object.new : Nat → CST → Except String Object
  | 0, _ => .error fuelMsg
  | fuel+1, n => do
    let acc ← n.children.foldlM
      (fun (acc : ObjectNewAcc) c =>
        match c.kind with
        | "object" | ":" => pure acc
        | "modifiers" => do
          let mods ← c.children.mapM Modifier.new
          pure { acc with modifiers := acc.modifiers ++ mods }
        | "type_identifier" => pure { acc with name := some c.text }
        | "delegation_specifier" => do
          let d ← Delegation.new fuel c
          pure { acc with delegations := acc.delegations ++ [d] }
        | "class_body" => do
          let b ← ClassBody.new_class_body fuel c
          pure { acc with class_body := some b }
        | _ => .error (unhandled "Object" "unhandled child" c))
      {}
    let name ← ctxOpt acc.name "no name found"
    .ok (.Object acc.modifiers name acc.delegations acc.class_body)

/-- `class.rs::EnumEntry::new` (unknown children skipped). -/
def EnumEntry.new : Nat → CST → Except String EnumEntry
  | 0, _ => .error fuelMsg
  | fuel+1, n => do
    let acc ← n.children.foldlM
      (fun (acc : EnumEntryNewAcc) c =>
        match c.kind with
        | "modifiers" => do
          let mods ← c.children.mapM Modifier.new
          pure { acc with modifiers := acc.modifiers ++ mods }
        | "simple_identifier" => pure { acc with identifier := some c.text }
        | "value_arguments" => do
          let args ← get_value_arguments fuel c
          pure { acc with value_arguments := some args }
        | "class_body" => do
          let b ← ClassBody.new_class_body fuel c
          pure { acc with class_body := some b }
        | _ => pure acc)
      {}
    let id ← ctxOpt acc.identifier ("[EnumEntry] no identifier at " ++ n.startPos.fmt)
    .ok (.EnumEntry acc.modifiers id acc.value_arguments acc.class_body)

/-- `class.rs::AnonymousInitializer::new`. -/
def AnonymousInitializer.new : Nat → CST → Except String AnonymousInitializer
  | 0, _ => .error fuelMsg
  | fuel+1, n => do
    let acc ← n.children.foldlM
      (fun (acc : Option (List Statement)) c =>
        match c.kind with
        | "init" | "\x7b" | "\x7d" => pure acc
        | "statements" => do
          let s ← get_statements fuel c
          pure (some s)
        | _ => .error (unhandled "AnonymousInitializer" "unhandled child" c))
      none
    let s ← ctxOpt acc ("[AnonymousInitializer] no statements at " ++ n.startPos.fmt)
    .ok (.AnonymousInitializer s)

/-- `class.rs::ClassBody::new_class_body`. Getter/setter children are
skipped at this level: they belong to the preceding property, which reads
them through its next sibling. -/
def ClassBody.new_class_body : Nat → CST → Except String ClassBody
  | 0, _ => .error fuelMsg
  | fuel+1, n => do
    let acc ← n.childrenWithSibs.foldlM
      (fun (acc : ClassBodyNewAcc) cs => do
        let (c, _, cNext) := cs
        match c.kind with
        | "\x7b" | "\x7d" | "line_comment" | "multiline_comment" | "getter" | "setter" => pure acc
        | "property_declaration" => do
          let p ← Property.new fuel c cNext
          pure { acc with properties := acc.properties ++ [p] }
        | "function_declaration" => do
          let f ← Function.new fuel c
          pure { acc with functions := acc.functions ++ [f] }
        | "object_declaration" => do
          let o ← Object.new fuel c
          pure { acc with objects := acc.objects ++ [o] }
        | "class_declaration" => do
          let k ← Class.new fuel c
          pure { acc with classes := acc.classes ++ [k] }
        | "companion_object" => do
          let co ← CompanionObject.new fuel c
          pure { acc with companion_objects := acc.companion_objects ++ [co] }
        | "anonymous_initializer" => do
          let ai ← AnonymousInitializer.new fuel c
          pure { acc with anonymous_initializers := acc.anonymous_initializers ++ [ai] }
        | "secondary_constructor" => do
          let sc ← SecondaryConstructor.new fuel c
          pure { acc with secondary_constructors := acc.secondary_constructors ++ [sc] }
        | _ => .error (unhandled "ClassBody::Class" "unhandled child" c))
      {}
    .ok (.ClassBodyC acc.properties acc.functions acc.objects acc.classes
      acc.companion_objects acc.anonymous_initializers acc.secondary_constructors)

/-- `class.rs::ClassBody::new_enum_class_body`. -/
def ClassBody.new_enum_class_body : Nat → CST → Except String ClassBody
  | 0, _ => .error fuelMsg
  | fuel+1, n => do
    let acc ← n.childrenWithSibs.foldlM
      (fun (acc : ClassBodyNewAcc) cs => do
        let (c, _, cNext) := cs
        match c.kind with
        | "\x7b" | "," | "\x7d" | ";" | "getter" | "setter" | "line_comment" => pure acc
        | "enum_entry" => do
          let e ← EnumEntry.new fuel c
          pure { acc with entries := acc.entries ++ [e] }
        | "property_declaration" => do
          let p ← Property.new fuel c cNext
          pure { acc with properties := acc.properties ++ [p] }
        | "function_declaration" => do
          let f ← Function.new fuel c
          pure { acc with functions := acc.functions ++ [f] }
        | "object_declaration" => do
          let o ← Object.new fuel c
          pure { acc with objects := acc.objects ++ [o] }
        | "class_declaration" => do
          let k ← Class.new fuel c
          pure { acc with classes := acc.classes ++ [k] }
        | "companion_object" => do
          let co ← CompanionObject.new fuel c
          pure { acc with companion_objects := acc.companion_objects ++ [co] }
        | "anonymous_initializer" => do
          let ai ← AnonymousInitializer.new fuel c
          pure { acc with anonymous_initializers := acc.anonymous_initializers ++ [ai] }
        | "secondary_constructor" => do
          let sc ← SecondaryConstructor.new fuel c
          pure { acc with secondary_constructors := acc.secondary_constructors ++ [sc] }
        | _ => .error (unhandled "ClassBody::Enum" "unhandled child" c))
      {}
    .ok (.ClassBodyE acc.entries acc.properties acc.functions acc.objects acc.classes
      acc.companion_objects acc.anonymous_initializers acc.secondary_constructors)

/-- `class.rs::CompanionObject::new`. -/
def CompanionObject.new : Nat → CST → Except String CompanionObject
  | 0, _ => .error fuelMsg
  | fuel+1, n => do
    let acc ← n.children.foldlM
      (fun (acc : Option ClassBody) c =>
        match c.kind with
        | "companion" | "object" => pure acc
        | "class_body" => do
          let b ← ClassBody.new_class_body fuel c
          pure (some b)
        | _ => .error (unhandled "ClassBody::CompanionObject" "unhandled child" c))
      none
    let b ← ctxOpt acc "no class body found"
    .ok (.CompanionObject b)

/-- `class.rs::ClassParameter::new`. An `=` child sets the initializer
expression from its next sibling and then `break`s out of the loop. -/
def ClassParameter.new : Nat → CST → Except String ClassParameter
  | 0, _ => .error fuelMsg
  | fuel+1, n => do
    let acc ← n.childrenWithSibs.foldlM
      (fun (acc : ClassParameterNewAcc) cs => do
        let (c, cPrev, cNext) := cs
        if acc.stopped then pure acc
        else
          match c.kind with
          | "val" => pure { acc with mutability := some .Val }
          | "var" => pure { acc with mutability := some .Var }
          | "modifiers" => do
            let mods ← c.children.mapM Modifier.new
            pure { acc with modifiers := acc.modifiers ++ mods }
          | "simple_identifier" => pure { acc with name := some c.text }
          | "user_type" | "nullable_type" | "function_type" => do
            let t ← Typ.new fuel c cPrev
            pure { acc with data_type := some t }
          | ":" => pure acc
          | "=" => do
            let nx ← ctxOpt cNext ("[ClassParameter] no sibling at " ++ c.startPos.fmt)
            let e ← Expression.new fuel nx (some c)
            pure { acc with expression := some e, stopped := true }
          | _ => .error (unhandled "ClassParameter" "unhandled child" c))
      {}
    let name ← ctxOpt acc.name ("[ClassParameter] no name found at " ++ n.startPos.fmt)
    let t ← ctxOpt acc.data_type ("[ClassParameter] no data type found at " ++ n.startPos.fmt)
    .ok (.ClassParameter acc.mutability name t acc.modifiers acc.expression)

/-- `class.rs::Constructor::new`. -/
def Constructor.new : Nat → CST → Except String Constructor
  | 0, _ => .error fuelMsg
  | fuel+1, n => do
    let acc ← n.children.foldlM
      (fun (acc : List Modifier × List ClassParameter) c =>
        match c.kind with
        | "(" | "," | ")" | "constructor" | "line_comment" => pure acc
        | "modifiers" => do
          let mods ← c.children.mapM Modifier.new
          pure (acc.1 ++ mods, acc.2)
        | "class_parameter" => do
          let p ← ClassParameter.new fuel c
          pure (acc.1, acc.2 ++ [p])
        | _ => .error (unhandled "Constructor" "unhandled child" c))
      ([], [])
    .ok (.Constructor acc.1 acc.2)

/-- `class.rs::Class::new`. -/
def Class.new : Nat → CST → Except String Class
  | 0, _ => .error fuelMsg
  | fuel+1, n => do
    let acc ← n.children.foldlM
      (fun (acc : ClassNewAcc) c =>
        match c.kind with
        | ":" | "," => pure acc
        | "modifiers" => do
          let mods ← c.children.mapM Modifier.new
          pure { acc with modifiers := acc.modifiers ++ mods }
        | "class" => pure { acc with class_type := some .Class }
        | "interface" => pure { acc with class_type := some .Interface }
        | "enum" => pure { acc with class_type := some .Enum }
        | "type_identifier" => pure { acc with name := some c.text }
        | "primary_constructor" => do
          let co ← Constructor.new fuel c
          pure { acc with constructor := some co }
        | "delegation_specifier" => do
          let d ← Delegation.new fuel c
          pure { acc with delegations := acc.delegations ++ [d] }
        | "class_body" => do
          let b ← ClassBody.new_class_body fuel c
          pure { acc with body := some b }
        | "enum_class_body" => do
          let b ← ClassBody.new_enum_class_body fuel c
          pure { acc with body := some b }
        | "type_parameters" => do
          let tps ← c.children.foldlM (fun (tps : List TypeParameter) tc =>
            if tc.kind == "type_parameter" then do
              let tp ← TypeParameter.new fuel tc
              pure (tps ++ [tp])
            else pure tps) []
          pure { acc with type_parameters := acc.type_parameters ++ tps }
        | _ => .error ("[Class]: unhandled child " ++ c.kind ++ " " ++ c.text ++ " at " ++ c.startPos.fmt))
      {}
    let ct ← ctxOpt acc.class_type "[Class] no class type found"
    let name ← ctxOpt acc.name "[Class] no class name found"
    .ok (.Class ct name acc.modifiers acc.type_parameters acc.constructor
      acc.delegations acc.body)

/-- `class.rs::SecondaryConstructor::new` (unknown children skipped; the
parameter type node is child 2 unless it is `type_modifiers`, then
child 3). -/
def SecondaryConstructor.new : Nat → CST → Except String SecondaryConstructor
  | 0, _ => .error fuelMsg
  | fuel+1, n => do
    let acc ← n.children.foldlM
      (fun (acc : List Parameter × List Statement) c =>
        match c.kind with
        | "statements" => do
          let block ← get_statements fuel c
          pure (acc.1, block)
        | "function_value_parameters" => do
          let ps ← c.children.foldlM (fun (ps : List Parameter) pc =>
            if pc.kind == "parameter" then do
              let nameN ← ctxOpt (pc.child 0) "no parameter name found"
              let t ←
                match (pc.child 2).filter (fun x => x.kind != "type_modifiers") with
                | some tn => Typ.new fuel tn (pc.child 1)
                | none =>
                  match pc.child 3 with
                  | some tn => Typ.new fuel tn (pc.child 2)
                  | none => .error "no type identifier found"
              pure (ps ++ [.Parameter nameN.text t])
            else pure ps) []
          pure (acc.1 ++ ps, acc.2)
        | _ => pure acc)
      ([], [])
    .ok (.SecondaryConstructor acc.1 acc.2)

end

/-- `class.rs::get_classes`: every `class_declaration` node of the whole
tree, in pre-order; a failing class build aborts the whole extraction. -/
def get_classes (fuel : Nat) (t : CST) : Except String (List Class) :=
  (rootCtxs t).foldlM (fun (acc : List Class) c =>
    if c.node.kind == "class_declaration" then do
      let k ← Class.new fuel c.node
      pure (acc ++ [k])
    else pure acc) []

end KB

/-- A file-system entry yielded by the external `WalkDir` collaborator,
together with the tree the external parser produced for the file's
content. -/
structure WalkEntry where
  path : FsPath
  isFile : Bool
  tree : CST

namespace KA

/- Namespace KA embeds the semantic-model generation of src/kotlin/mod.rs
and src/kotlin/class/{mod,function,property}.rs (with package.rs and
import.rs). -/

/-- `kotlin/mod.rs::Position`. -/
structure Position where
  line : Nat
  char : Nat
deriving DecidableEq, Repr

/-- `kotlin/mod.rs::Position::new`. -/
def Position.new (line char : Nat) : Position := ⟨line, char⟩

/-- `kotlin/mod.rs::DataType` (also declared identically in
class/function.rs). -/
structure DataType where
  s : String
deriving DecidableEq, Repr

/-- `kotlin/package.rs::Package`. -/
structure Package where
  s : String
deriving DecidableEq, Repr

/-- `kotlin/package.rs::get_package`: the first `package` node's next
sibling text; an absent sibling or an absent `package` node both give the
empty package. -/
def get_package (t : CST) : Except String Package :=
  match (rootCtxs t).find? (fun c => c.node.kind == "package") with
  | some c =>
    match c.after.head? with
    | some p => .ok ⟨p.text⟩
    | none => .ok ⟨""⟩
  | none => .ok ⟨""⟩

/-- `kotlin/import.rs::Import`. -/
structure Import where
  s : String
deriving DecidableEq, Repr

/-- `kotlin/import.rs::get_imports`: every `import` node contributes its
next sibling's text; a missing sibling is the error "malformed import". -/
def get_imports (t : CST) : Except String (List Import) :=
  (rootCtxs t).foldlM (fun (acc : List Import) c =>
    if c.node.kind == "import" then do
      let nx ← ctxOpt c.after.head? "malformed import"
      pure (acc ++ [⟨nx.text⟩])
    else pure acc) []

/-- Modelled from the spec: the type `kotlin::Type` referenced by
class/mod.rs and class/property.rs is not under src (only its uses
survive). Per the spec's data model ("a type is either a named
nullable/non-nullable reference ...") and its construction sites
`Type::Nullable(text)` / `Type::NonNullable(text)`, it is a named type
reference carrying its text. Named `Typ` (`Type` is a Lean keyword). -/
inductive Typ : Type where
  | Nullable (s : String)
  | NonNullable (s : String)
deriving DecidableEq, Repr

/-- `class/mod.rs::Modifier` (no Member variant in this generation);
`Annotation` is named `Annot`. -/
inductive Modifier : Type where
  | Class (s : String)
  | Visibility (s : String)
  | Annot (s : String)
  | Inheritance (s : String)
deriving DecidableEq, Repr

/-- `class/mod.rs::Modifier::new`. -/
def Modifier.new (n : CST) : Except String Modifier :=
  match n.kind with
  | "visibility_modifier" => .ok (.Visibility n.text)
  | "class_modifier" => .ok (.Class n.text)
  | "annotation" => .ok (.Annot n.text)
  | "inheritance_modifier" => .ok (.Inheritance n.text)
  | k => .error ("unknown modifier " ++ k)

/-- `class/property.rs::PropertyModifier`; `Annotation` is named `Annot`. -/
inductive PropertyModifier : Type where
  | Annot (s : String)
  | Member (s : String)
  | Visibility (s : String)
  | Inheritance (s : String)
deriving DecidableEq, Repr

/-- `class/property.rs::PropertyMutability`. -/
inductive PropertyMutability : Type where
  | Var | Val
deriving DecidableEq, Repr

/-- `class/property.rs::Property`. Its `expression` is a current-gen
`Expression` (kotlin/expression) and its `getter` a current-gen `Getter`. -/
structure Property where
  modifiers : List PropertyModifier
  name : String
  data_type : Option Typ
  extension_type : Option Typ
  mutability : PropertyMutability
  expression : Option KB.Expression
  getter : Option KB.Getter

/-- Accumulator of the child loop of `class/property.rs::Property::new`. -/
structure PropertyNewAcc where
  modifiers : List PropertyModifier := []
  mutability : Option PropertyMutability := none
  extension_type : Option Typ := none
  name : Option String := none
  data_type : Option Typ := none
  expression : Option KB.Expression := none

/-- `class/property.rs::Property::new`. `next` is `node.next_sibling()`,
inspected for a trailing getter (a trailing setter is the error
"[Property] setter not implemented"). -/
def Property.new (fuel : Nat) (n : CST) (next : Option CST) : Except String Property := do
  let acc ← n.childrenWithSibs.foldlM
    (fun (acc : PropertyNewAcc) cs => do
      let (c, cPrev, _) := cs
      match c.kind with
      | "modifiers" => do
        let mods ← c.children.mapM (fun m =>
          match m.kind with
          | "annotation" => .ok (PropertyModifier.Annot m.text)
          | "member_modifier" => .ok (PropertyModifier.Member m.text)
          | "visibility_modifier" => .ok (PropertyModifier.Visibility m.text)
          | "inheritance_modifier" => .ok (PropertyModifier.Inheritance m.text)
          | k => .error ("unknown modifier " ++ k))
        pure { acc with modifiers := acc.modifiers ++ mods }
      | "var" => pure { acc with mutability := some .Var }
      | "val" => pure { acc with mutability := some .Val }
      | "user_type" => pure { acc with extension_type := some (.NonNullable c.text) }
      | "nullable_type" => pure { acc with extension_type := some (.Nullable c.text) }
      | "variable_declaration" => do
        let nameN ← ctxOpt (c.child 0) "no name found for variable declaration"
        let data_type ←
          match c.child 2 with
          | some tn =>
            match tn.kind with
            | "user_type" => pure (some (Typ.NonNullable tn.text))
            | "nullable_type" => pure (some (Typ.Nullable tn.text))
            | _ => .error (unhandled "Property][data_type" "unhandled child" tn)
          | none => pure none
        pure { acc with name := some nameN.text, data_type := data_type }
      | "." | "=" => pure acc
      | "call_expression" => do
        let e ← KB.Expression.new fuel c cPrev
        pure { acc with expression := some e }
      | _ => .error (unhandled "Property" "unhandled child" c))
    {}
  let getter ←
    match next with
    | some nx =>
      match nx.kind with
      | "getter" => do
        let g ← KB.Getter.new fuel nx
        pure (some g)
      | "setter" => .error "[Property] setter not implemented"
      | _ => pure none
    | none => pure none
  let name ← ctxOpt acc.name "no name found"
  let mu ← ctxOpt acc.mutability "no mutability modifier found"
  .ok { modifiers := acc.modifiers, name := name, data_type := acc.data_type,
        extension_type := acc.extension_type, mutability := mu,
        expression := acc.expression, getter := getter }

/-- `class/function.rs::FunctionModifier`; `Annotation` is `Annot`. -/
inductive FunctionModifier : Type where
  | Annot (s : String)
  | Member (s : String)
  | Visibility (s : String)
  | Function (s : String)
  | Inheritance (s : String)
deriving DecidableEq, Repr

/-- `class/function.rs::FunctionParameter`. -/
structure FunctionParameter where
  name : String
  type_identifier : DataType
deriving DecidableEq, Repr

/-- `class/function.rs::Identifier`: one occurrence of a simple identifier
inside a function body, with its recorded range and (after
populate_types) its resolved data type. -/
structure Identifier where
  name : String
  range : Position × Position
  data_type : Option DataType
deriving DecidableEq, Repr

/-- `class/function.rs::Identifier::in_range`. Source comment: "assumes
identifier can not be multiline!" - the line is compared against the
START line only. -/
def Identifier.in_range (i : Identifier) (pos : Position) : Bool :=
  i.range.1.line == pos.line && decide (i.range.1.char ≤ pos.char) &&
    decide (i.range.2.char ≥ pos.char)

/-- `class/function.rs::Identifier::hover`: a markdown fenced kotlin block
`name: type`, or none when no data type is known. -/
def Identifier.hover (i : Identifier) : Option Hover :=
  i.data_type.map (fun dt => ⟨"```kotlin\n" ++ i.name ++ ": " ++ dt.s ++ "\n```"⟩)

/-- `class/function.rs::FunctionBody`. -/
structure FunctionBody where
  identifiers : List Identifier
deriving DecidableEq, Repr

/-- `class/function.rs::FunctionBody::new`: every `simple_identifier` of
the body subtree, in pre-order, with its span and no data type yet. -/
def FunctionBody.new (n : CST) : Except String FunctionBody :=
  .ok ⟨(preorder n).foldl (fun acc c =>
    if c.kind == "simple_identifier" then
      acc ++ [{ name := c.text,
                range := (⟨c.startPos.row, c.startPos.col⟩, ⟨c.endPos.row, c.endPos.col⟩),
                data_type := none }]
    else acc) []⟩

/-- `class/function.rs::FunctionBody::populate_types`: each identifier
takes the data type of the first already-typed identifier of the same
name, else of the parameter of the same name, else none. -/
def FunctionBody.populate_types (b : FunctionBody) (parameters : List FunctionParameter) :
    FunctionBody :=
  ⟨b.identifiers.foldl (fun typed i =>
    match typed.find? (fun t => t.name == i.name) with
    | some t => typed ++ [{ name := i.name, range := i.range, data_type := t.data_type }]
    | none =>
      match parameters.find? (fun p => p.name == i.name) with
      | some p => typed ++ [{ name := i.name, range := i.range,
                              data_type := some p.type_identifier }]
      | none => typed ++ [{ name := i.name, range := i.range, data_type := none }]) []⟩

/-- `class/function.rs::Function`. -/
structure Function where
  modifiers : List FunctionModifier
  name : String
  parameters : List FunctionParameter
  return_type : Option String
  body : Option FunctionBody
deriving DecidableEq, Repr

/-- Accumulator of the child loop of `class/function.rs::Function::new`. -/
structure FunctionNewAcc where
  modifiers : List FunctionModifier := []
  parameters : List FunctionParameter := []
  name : Option String := none
  return_type : Option String := none
  body : Option FunctionBody := none

/-- `class/function.rs::Function::new` (a sequence of independent `if`s;
unknown child kinds are silently skipped). -/
def Function.new (n : CST) : Except String Function := do
  let acc ← n.children.foldlM
    (fun (acc : FunctionNewAcc) c => do
      let acc ←
        if c.kind == "modifiers" then do
          let mods ← c.children.mapM (fun m =>
            match m.kind with
            | "annotation" => .ok (FunctionModifier.Annot m.text)
            | "member_modifier" => .ok (FunctionModifier.Member m.text)
            | "visibility_modifier" => .ok (FunctionModifier.Visibility m.text)
            | "function_modifier" => .ok (FunctionModifier.Function m.text)
            | "inheritance_modifier" => .ok (FunctionModifier.Inheritance m.text)
            | k => .error ("unknown modifier " ++ k))
          pure { acc with modifiers := acc.modifiers ++ mods }
        else pure acc
      let acc ← pure
        (if c.kind == "simple_identifier" then { acc with name := some c.text } else acc)
      let acc ←
        if c.kind == "function_value_parameters" then do
          let ps ← c.children.foldlM (fun (ps : List FunctionParameter) pc =>
            if pc.kind == "parameter" then do
              let nameN ← ctxOpt (pc.child 0) "no parameter name found"
              let tn ← ctxOpt (pc.child 2) "no type identifier found"
              pure (ps ++ [{ name := nameN.text, type_identifier := ⟨tn.text⟩ }])
            else pure ps) []
          pure { acc with parameters := acc.parameters ++ ps }
        else pure acc
      let acc ← pure
        (if c.kind == "user_type" then { acc with return_type := some c.text } else acc)
      let acc ← pure
        (if c.kind == "nullable_type" then { acc with return_type := some c.text } else acc)
      if c.kind == "function_body" then do
        let b ← FunctionBody.new c
        pure { acc with body := some b }
      else pure acc)
    {}
  let name ← ctxOpt acc.name "no name found for function"
  .ok { modifiers := acc.modifiers, name := name, parameters := acc.parameters,
        return_type := acc.return_type, body := acc.body }

/-- `class/function.rs::Function::populate_types`. -/
def Function.populate_types (f : Function) : Function :=
  match f.body with
  | some b => { f with body := some (b.populate_types f.parameters) }
  | none => f

/-- `class/mod.rs::ClassType`. -/
inductive ClassType : Type where
  | Class | Interface | Enum
deriving DecidableEq, Repr

/-- `class/mod.rs::ClassParameterMutability`. -/
inductive ClassParameterMutability : Type where
  | Val | Var
deriving DecidableEq, Repr

/-- `class/mod.rs::ClassParameter` (mandatory mutability and type in this
generation). -/
structure ClassParameter where
  mutability : ClassParameterMutability
  name : String
  data_type : Typ
  modifiers : List Modifier
deriving DecidableEq, Repr

/-- Accumulator of the child loop of `class/mod.rs::ClassParameter::new`. -/
structure ClassParameterNewAcc where
  mutability : Option ClassParameterMutability := none
  name : Option String := none
  data_type : Option Typ := none
  modifiers : List Modifier := []

/-- `class/mod.rs::ClassParameter::new`. -/
def ClassParameter.new (n : CST) : Except String ClassParameter := do
  let acc ← n.children.foldlM
    (fun (acc : ClassParameterNewAcc) c =>
      match c.kind with
      | "val" => pure { acc with mutability := some .Val }
      | "var" => pure { acc with mutability := some .Var }
      | "modifiers" => do
        let mods ← c.children.mapM Modifier.new
        pure { acc with modifiers := acc.modifiers ++ mods }
      | "simple_identifier" => pure { acc with name := some c.text }
      | "user_type" => pure { acc with data_type := some (.NonNullable c.text) }
      | "nullable_type" => pure { acc with data_type := some (.Nullable c.text) }
      | ":" => pure acc
      | _ => .error ("ClassParameter: unhandled child " ++ c.kind ++ " " ++ c.text ++
          " at " ++ c.startPos.fmt))
    {}
  let mu ← ctxOpt acc.mutability "no mutability found"
  let name ← ctxOpt acc.name "no name found"
  let t ← ctxOpt acc.data_type "no data_type found"
  .ok { mutability := mu, name := name, data_type := t, modifiers := acc.modifiers }

/-- `class/mod.rs::Constructor`. -/
structure Constructor where
  modifiers : List Modifier
  parameters : List ClassParameter
deriving DecidableEq, Repr

/-- `class/mod.rs::Constructor::new`. -/
def Constructor.new (n : CST) : Except String Constructor := do
  let acc ← n.children.foldlM
    (fun (acc : List Modifier × List ClassParameter) c =>
      match c.kind with
      | "(" | "," | ")" | "constructor" => pure acc
      | "modifiers" => do
        let mods ← c.children.mapM Modifier.new
        pure (acc.1 ++ mods, acc.2)
      | "class_parameter" => do
        let p ← ClassParameter.new c
        pure (acc.1, acc.2 ++ [p])
      | _ => .error (unhandled "" "unhandled child" c))
    ([], [])
  .ok { parameters := acc.2, modifiers := acc.1 }

/-- `class/mod.rs::ConstructorInvocation` (its value arguments are built
by the `argument::get_arguments` modelled in KB). -/
structure ConstructorInvocation where
  data_type : Typ
  arguments : List KB.Argument

/-- `class/mod.rs::ConstructorInvocation::new`. -/
def ConstructorInvocation.new (fuel : Nat) (n : CST) : Except String ConstructorInvocation := do
  let acc ← n.children.foldlM
    (fun (acc : Option Typ × Option (List KB.Argument)) c =>
      match c.kind with
      | "user_type" => pure (some (.NonNullable c.text), acc.2)
      | "value_arguments" => do
        let args ← KB.get_arguments fuel c
        pure (acc.1, some args)
      | _ => .error (unhandled "" "unhandled child" c))
    (none, none)
  let t ← ctxOpt acc.1 "no data type found"
  let args ← ctxOpt acc.2 "no arguments found"
  .ok { data_type := t, arguments := args }

/-- `class/mod.rs::Delegation`. -/
inductive Delegation : Type where
  | Type (t : Typ)
  | ConstructorInvocation (ci : KA.ConstructorInvocation)

/-- `class/mod.rs::Delegation::new`. -/
def Delegation.new (fuel : Nat) (n : CST) : Except String Delegation := do
  let child ← ctxOpt (n.child 0) "no delegation specifier child"
  match child.kind with
  | "user_type" => .ok (.Type (.NonNullable child.text))
  | "constructor_invocation" => do
    let ci ← KA.ConstructorInvocation.new fuel child
    .ok (.ConstructorInvocation ci)
  | _ => .error (unhandled "" "unhandled child" child)

mutual

/-- `class/mod.rs::ClassBody` (single `Class` variant in this
generation). -/
inductive ClassBody : Type where
  | Class (properties : List Property) (functions : List Function)
      (objects : List KB.Object) (classes : List KotlinClass)
      (companion_objects : List CompanionObject)

/-- `class/mod.rs::CompanionObject`. -/
inductive CompanionObject : Type where
  | mk (body : ClassBody)

/-- `class/mod.rs::KotlinClass` (its name is stored as a `Type`). -/
inductive KotlinClass : Type where
  | mk (class_type : ClassType) (name : Typ) (modifiers : List Modifier)
      (constructor : Option Constructor) (delegations : List Delegation)
      (body : Option ClassBody)

end

/-- Accumulator of `class/mod.rs::ClassBody::new_class_body`. -/
structure ClassBodyNewAcc where
  properties : List Property := []
  functions : List Function := []
  objects : List KB.Object := []
  classes : List KotlinClass := []
  companion_objects : List CompanionObject := []

/-- Accumulator of `class/mod.rs::KotlinClass::new`. -/
structure KotlinClassNewAcc where
  modifiers : List Modifier := []
  class_type : Option ClassType := none
  name : Option Typ := none
  constructor : Option Constructor := none
  body : Option ClassBody := none
  delegations : List Delegation := []

mutual

/-- `class/mod.rs::ClassBody::new_class_body`. -/
def ClassBody.new_class_body : Nat → CST → Except String ClassBody
  | 0, _ => .error KB.fuelMsg
  | fuel+1, n => do
    let acc ← n.childrenWithSibs.foldlM
      (fun (acc : ClassBodyNewAcc) cs => do
        let (c, _, cNext) := cs
        match c.kind with
        | "\x7b" | "\x7d" | "line_comment" => pure acc
        | "property_declaration" => do
          let p ← Property.new fuel c cNext
          pure { acc with properties := acc.properties ++ [p] }
        | "function_declaration" => do
          let f ← Function.new c
          pure { acc with functions := acc.functions ++ [f] }
        | "object_declaration" => do
          let o ← KB.Object.new fuel c
          pure { acc with objects := acc.objects ++ [o] }
        | "class_declaration" => do
          let k ← KotlinClass.new fuel c
          pure { acc with classes := acc.classes ++ [k] }
        | "companion_object" => do
          let co ← CompanionObject.new fuel c
          pure { acc with companion_objects := acc.companion_objects ++ [co] }
        | _ => .error (unhandled "ClassBody::Class" "unhandled child" c))
      {}
    .ok (.Class acc.properties acc.functions acc.objects acc.classes
      acc.companion_objects)

/-- `class/mod.rs::CompanionObject::new`. -/
def CompanionObject.new : Nat → CST → Except String CompanionObject
  | 0, _ => .error KB.fuelMsg
  | fuel+1, n => do
    let acc ← n.children.foldlM
      (fun (acc : Option ClassBody) c =>
        match c.kind with
        | "companion" | "object" => pure acc
        | "class_body" => do
          let b ← ClassBody.new_class_body fuel c
          pure (some b)
        | _ => .error (unhandled "ClassBody::CompanionObject" "unhandled child" c))
      none
    let b ← ctxOpt acc "no class body found"
    .ok (.mk b)

/-- `class/mod.rs::KotlinClass::new`. -/
def KotlinClass.new : Nat → CST → Except String KotlinClass
  | 0, _ => .error KB.fuelMsg
  | fuel+1, n => do
    let acc ← n.children.foldlM
      (fun (acc : KotlinClassNewAcc) c =>
        match c.kind with
        | ":" => pure acc
        | "modifiers" => do
          let mods ← c.children.mapM Modifier.new
          pure { acc with modifiers := acc.modifiers ++ mods }
        | "class" => pure { acc with class_type := some .Class }
        | "interface" => pure { acc with class_type := some .Interface }
        | "enum" => pure { acc with class_type := some .Enum }
        | "type_identifier" => pure { acc with name := some (.NonNullable c.text) }
        | "primary_constructor" => do
          let co ← Constructor.new c
          pure { acc with constructor := some co }
        | "delegation_specifier" => do
          let d ← Delegation.new fuel c
          pure { acc with delegations := acc.delegations ++ [d] }
        | "class_body" => do
          let b ← ClassBody.new_class_body fuel c
          pure { acc with body := some b }
        | _ => .error ("KotlinClass: unhandled child " ++ c.kind ++ " " ++ c.text ++
            " at " ++ c.startPos.fmt))
      {}
    let ct ← ctxOpt acc.class_type "no class type found"
    let name ← ctxOpt acc.name "no class name found"
    .ok (.mk ct name acc.modifiers acc.constructor acc.delegations acc.body)

end

/-- `class/mod.rs::get_classes`: every `class_declaration` of the tree in
pre-order; one failing class aborts the extraction. -/
def get_classes (fuel : Nat) (t : CST) : Except String (List KotlinClass) :=
  (rootCtxs t).foldlM (fun (acc : List KotlinClass) c =>
    if c.node.kind == "class_declaration" then do
      let k ← KotlinClass.new fuel c.node
      pure (acc ++ [k])
    else pure acc) []

/-- `kotlin/mod.rs::KotlinFile`. -/
structure KotlinFile where
  package : Package
  imports : List Import
  classes : List KotlinClass

/-- `kotlin/mod.rs::KotlinFile::new`. -/
def KotlinFile.new (fuel : Nat) (t : CST) : Except String KotlinFile := do
  let package ← get_package t
  let imports ← get_imports t
  let classes ← get_classes fuel t
  .ok { package := package, imports := imports, classes := classes }

/-- The functions of a class body. -/
def KotlinClass.functions : KotlinClass → List Function
  | .mk _ _ _ _ _ (some (.Class _ fns _ _ _)) => fns
  | _ => []

/-- Modelled from the spec: `KotlinClass::get_elem`, the per-class lookup
that `KotlinFile::hover_element` (kotlin/mod.rs, present) calls; the
method itself is not under src (the class module in the tree is a later
generation without it). Per the hover contract and the
`function_parameter_hover` test, it returns the hover of the first
identifier of the class's function bodies whose recorded range contains
the position. -/
def KotlinClass.get_elem (k : KotlinClass) (pos : Position) : Option Hover :=
  ((k.functions.flatMap (fun f =>
      match f.body with
      | some b => b.identifiers
      | none => [])).find? (fun i => i.in_range pos)).bind Identifier.hover

/-- `kotlin/mod.rs::KotlinFile::hover_element`: the first class with a
hover at the position. -/
def KotlinFile.hover_element (f : KotlinFile) (pos : Position) : Option Hover :=
  f.classes.findSome? (fun c => c.get_elem pos)

/-- Modelled from the spec: `KotlinClass::populate_types`, called by
`KotlinFile::populate_types` (present) but itself not under src. Per the
spec, type population resolves identifier occurrences inside function
bodies against the function parameters, which is
`Function::populate_types` (present) mapped over the class's functions. -/
def KotlinClass.populate_types (k : KotlinClass) : KotlinClass :=
  match k with
  | .mk ct name mods ctor dels (some (.Class props fns objs classes cos)) =>
    .mk ct name mods ctor dels (some (.Class props (fns.map Function.populate_types)
      objs classes cos))
  | k => k

/-- `kotlin/mod.rs::KotlinFile::populate_types`. -/
def KotlinFile.populate_types (f : KotlinFile) : KotlinFile :=
  { package := f.package, imports := f.imports,
    classes := f.classes.map KotlinClass.populate_types }

/-- `kotlin/mod.rs::from_path`. The external walker and parser yield the
entries; files are filtered to regular `.kt` files. A file whose model
fails aborts the whole build with the error context `file: <path>` (the
`?` after `.context(...)`); only when every file succeeds is the map of
populated files returned. -/
def from_path (fuel : Nat) (entries : List WalkEntry) :
    Except String (List (FsPath × KotlinFile)) := do
  let files ← (entries.filter (fun e => e.isFile && e.path.ext == some "kt")).foldlM
    (fun (acc : List (FsPath × KotlinFile)) e => do
      let f ← ctxErr (KotlinFile.new fuel e.tree) ("file: " ++ e.path.dbgFmt)
      pure (acc ++ [(e.path, f)])) []
  pure (files.map (fun pf => (pf.1, pf.2.populate_types)))

end KA

namespace KO

/- Namespace KO embeds src/kotlin.rs, the oldest generation, whose
KotlinProject::new is cited by the claims. -/

/-- `kotlin.rs::ClassModifier`; `Annotation` is named `Annot`. -/
inductive ClassModifier : Type where
  | Class (s : String)
  | Visibility (s : String)
  | Annot (s : String)
  | Inheritance (s : String)
deriving DecidableEq, Repr

/-- `kotlin.rs::PropertyModifier`; `Annotation` is named `Annot`. -/
inductive PropertyModifier : Type where
  | Annot (s : String)
  | Member (s : String)
  | Visibility (s : String)
  | Inheritance (s : String)
deriving DecidableEq, Repr

/-- `kotlin.rs::Property`. -/
structure Property where
  modifiers : List PropertyModifier
  name : String
  type_identifier : Option String
deriving DecidableEq, Repr

/-- `kotlin.rs::ClassBody`. -/
structure ClassBody where
  properties : List Property
deriving DecidableEq, Repr

/-- `kotlin.rs::KotlinClass`. -/
structure KotlinClass where
  name : String
  modifiers : List ClassModifier
  supertypes : List String
  body : ClassBody
deriving DecidableEq, Repr

/-- `kotlin.rs::KotlinFile`. -/
structure KotlinFile where
  path : FsPath
  package : String
  imports : List String
  classes : List KotlinClass
deriving DecidableEq, Repr

/-- `kotlin.rs::get_package`: the first `package` node's next sibling; no
`package` node, or none with a next sibling, is the error "no package
found". -/
def get_package (t : CST) : Except String String :=
  match (rootCtxs t).find? (fun c => c.node.kind == "package") with
  | some c => do
    let nx ← ctxOpt c.after.head? "no package found"
    .ok nx.text
  | none => .error "no package found"

/-- `kotlin.rs::get_imports`. -/
def get_imports (t : CST) : Except String (List String) :=
  (rootCtxs t).foldlM (fun (acc : List String) c =>
    if c.node.kind == "import" then do
      let nx ← ctxOpt c.after.head? "malformed import"
      pure (acc ++ [nx.text])
    else pure acc) []

/-- `kotlin.rs::get_class_name`. -/
def get_class_name (n : CST) : Except String String :=
  match n.children.find? (fun c => c.kind == "type_identifier") with
  | some c => .ok c.text
  | none => .error "no class name found"

/-- `kotlin.rs::get_class_modifiers`. -/
def get_class_modifiers (n : CST) : Except String (List ClassModifier) :=
  n.children.foldlM (fun (acc : List ClassModifier) c =>
    if c.kind == "modifiers" then do
      let mods ← c.children.mapM (fun m =>
        match m.kind with
        | "visibility_modifier" => .ok (ClassModifier.Visibility m.text)
        | "class_modifier" => .ok (ClassModifier.Class m.text)
        | "annotation" => .ok (ClassModifier.Annot m.text)
        | "inheritance_modifier" => .ok (ClassModifier.Inheritance m.text)
        | k => .error ("unknown modifier " ++ k))
      pure (acc ++ mods)
    else pure acc) []

/-- `kotlin.rs::get_supertypes`. -/
def get_supertypes (n : CST) : Except String (List String) :=
  .ok ((n.children.filter (fun c => c.kind == "delegation_specifier")).map CST.text)

/-- `kotlin.rs::get_property` (returns at the first
`variable_declaration` child; no variable declaration is the error "no
property found"). -/
def get_property (n : CST) : Except String Property := do
  let acc ← n.children.foldlM
    (fun (acc : List PropertyModifier × Option Property) c =>
      match acc.2 with
      | some p => pure (acc.1, some p)
      | none =>
        if c.kind == "modifiers" then do
          let mods ← c.children.mapM (fun m =>
            match m.kind with
            | "annotation" => .ok (PropertyModifier.Annot m.text)
            | "member_modifier" => .ok (PropertyModifier.Member m.text)
            | "visibility_modifier" => .ok (PropertyModifier.Visibility m.text)
            | "inheritance_modifier" => .ok (PropertyModifier.Inheritance m.text)
            | k => .error ("unknown modifier " ++ k))
          pure (acc.1 ++ mods, none)
        else if c.kind == "variable_declaration" then do
          let nameN ← ctxOpt (c.child 0) "no name found for variable declaration"
          pure (acc.1, some { modifiers := acc.1, name := nameN.text,
                              type_identifier := (c.child 2).map CST.text })
        else pure acc)
    ([], none)
  ctxOpt acc.2 "no property found"

/-- `kotlin.rs::get_class_body`. -/
def get_class_body (n : CST) : Except String ClassBody := do
  let props ← n.children.foldlM (fun (acc : List Property) c =>
    if c.kind == "class_body" then
      c.children.foldlM (fun (acc : List Property) pc =>
        if pc.kind == "property_declaration" then do
          let p ← get_property pc
          pure (acc ++ [p])
        else pure acc) acc
    else pure acc) []
  .ok { properties := props }

/-- `kotlin.rs::get_classes`. -/
def get_classes (t : CST) : Except String (List KotlinClass) :=
  (rootCtxs t).foldlM (fun (acc : List KotlinClass) c =>
    if c.node.kind == "class_declaration" then do
      let name ← get_class_name c.node
      let modifiers ← get_class_modifiers c.node
      let supertypes ← get_supertypes c.node
      let body ← get_class_body c.node
      pure (acc ++ [{ name := name, modifiers := modifiers,
                      supertypes := supertypes, body := body }])
    else pure acc) []

/-- `kotlin.rs::KotlinFile::new`. -/
def KotlinFile.new (path : FsPath) (t : CST) : Except String KotlinFile := do
  let package ← get_package t
  let imports ← get_imports t
  let classes ← get_classes t
  .ok { path := path, package := package, imports := imports, classes := classes }

/-- `kotlin.rs::KotlinProject`. -/
structure KotlinProject where
  files : List KotlinFile
deriving DecidableEq, Repr

/-- `kotlin.rs::KotlinProject::new`: walks the `.kt` files; a file whose
model fails is DROPPED (only a warning is logged) and the remaining files
are still collected; the call as a whole always succeeds. -/
def KotlinProject.new (entries : List WalkEntry) : Except String KotlinProject :=
  .ok ⟨(entries.filter (fun e => e.isFile && e.path.ext == some "kt")).foldl
    (fun acc e =>
      match KotlinFile.new e.path e.tree with
      | .ok f => acc ++ [f]
      | .error _ => acc) []⟩

end KO

/- ------------------------------------------------------------------ -/
/- Claim theorems.                                                     -/
/- ------------------------------------------------------------------ -/

/-- Folding a containment test with overwrite over a visit list returns
the LAST passing element: the first passing element of the reversed list. -/
theorem foldl_overwrite_eq_find_rev (p : Ctx → Bool) :
    ∀ (l : List Ctx) (init : Option Ctx),
      l.foldl (fun acc c => if p c then some c else acc) init =
        (match l.reverse.find? p with
         | some x => some x
         | none => init) := by
  intro l
  induction l with
  | nil => intro init; rfl
  | cons x xs ih =>
    intro init
    rw [List.foldl_cons, ih, List.reverse_cons, List.find?_append]
    cases hf : xs.reverse.find? p with
    | some y => simp [hf, Option.orElse]
    | none => cases hp : p x <;> simp [hf, hp, List.find?, Option.orElse]

/-- C1: the Position Resolver returns the last node of the pre-order
traversal whose span passes the componentwise containment test of the
source (`nodeContains`), and returns none exactly when no node passes it
(a total function: no crash). The spec's lexicographic reading of
containment is refuted separately. -/
theorem get_node_returns_last_componentwise_match :
    ∀ (t : CST) (pos : LspPosition),
      get_node t pos =
        (rootCtxs t).reverse.find? (fun c => nodeContains c.node pos) ∧
      (get_node t pos = none ↔
        ∀ c ∈ rootCtxs t, nodeContains c.node pos = false) := by
  intro t pos
  have h := foldl_overwrite_eq_find_rev (fun c => nodeContains c.node pos) (rootCtxs t) none
  have h1 : get_node t pos =
      (rootCtxs t).reverse.find? (fun c => nodeContains c.node pos) := by
    rw [get_node, h]
    cases hf : (rootCtxs t).reverse.find? (fun c => nodeContains c.node pos) <;> simp
  refine ⟨h1, ?_⟩
  rw [h1]
  constructor
  · intro hn c hc
    have := List.find?_eq_none.mp hn c (List.mem_reverse.mpr hc)
    simpa using this
  · intro hall
    apply List.find?_eq_none.mpr
    intro c hc
    simpa using hall c (List.mem_reverse.mp hc)

/-- A node whose span contains a position in the spec's lexicographic
reading but not componentwise: the whole file is this single node, yet
the resolver finds nothing. -/
def lexNode : CST := .mk "simple_identifier" "x" ⟨0, 5⟩ ⟨1, 2⟩ []

/-- C1 counterexample: position (0, 6) lies between (0, 5) and (1, 2)
lexicographically, so the spec's containment holds for `lexNode`, yet
`get_node` returns none, because the componentwise test of the source
demands end.col = 2 >= 6. -/
theorem get_node_misses_lex_contained_node :
    specLexContains lexNode ⟨0, 6⟩ = true ∧ get_node lexNode ⟨0, 6⟩ = none :=
  ⟨rfl, rfl⟩

/-- The CST of the additive expression `1 + 2`. -/
def addNode : CST :=
  .mk "additive_expression" "1 + 2" ⟨0, 0⟩ ⟨0, 5⟩
    [.mk "integer_literal" "1" ⟨0, 0⟩ ⟨0, 1⟩ [],
     .mk "+" "+" ⟨0, 2⟩ ⟨0, 3⟩ [],
     .mk "integer_literal" "2" ⟨0, 4⟩ ⟨0, 5⟩ []]

/-- C2: `additive_expression` does read left = child(0) and right =
child(2), but the value it builds is `Expression::Conjunction`, not
`Expression::Additive` - the translation is not the direct structural
mapping the claim states, and `Additive` is a different shape than
`Conjunction`. -/
theorem additive_expression_builds_conjunction :
    KB.additive_expression 10 addNode =
      .ok (.Conjunction (.Literal (.LitInteger "1")) (.Literal (.LitInteger "2"))) ∧
    KB.Expression.new 10 addNode none =
      .ok (.Conjunction (.Literal (.LitInteger "1")) (.Literal (.LitInteger "2"))) ∧
    ∀ (l r : KB.Expression),
      KB.ExprNode.Additive l r ≠ KB.ExprNode.Conjunction l r :=
  ⟨rfl, rfl, fun _ _ h => by cases h⟩

/-- A malformed file: a lone `import` node with no next sibling. -/
def badTree : CST :=
  .mk "source_file" "import" ⟨0, 0⟩ ⟨0, 6⟩
    [.mk "import" "import" ⟨0, 0⟩ ⟨0, 6⟩ []]

/-- A well-formed file: `package com.example`. -/
def goodTree : CST :=
  .mk "source_file" "package com.example" ⟨0, 0⟩ ⟨0, 19⟩
    [.mk "package" "package" ⟨0, 0⟩ ⟨0, 7⟩ [],
     .mk "identifier" "com.example" ⟨0, 8⟩ ⟨0, 19⟩ []]

def badPath : FsPath := ⟨"/p/Bad.kt", some "Bad", some "kt"⟩

def goodPath : FsPath := ⟨"/p/Good.kt", some "Good", some "kt"⟩

def badEntry : WalkEntry := ⟨badPath, true, badTree⟩

def goodEntry : WalkEntry := ⟨goodPath, true, goodTree⟩

/-- C3: neither index builder retains a per-file outcome. `from_path`
(kotlin/mod.rs) aborts the whole build at the first failing file - the
well-formed Good.kt gets no entry at all - and `KotlinProject::new`
(kotlin.rs) silently drops the failing file, keeping only Good.kt with
no record of Bad.kt. -/
theorem failing_file_aborts_or_drops :
    KA.from_path 10 [badEntry, goodEntry] = .error "file: \"/p/Bad.kt\"" ∧
    KO.KotlinProject.new [badEntry, goodEntry] =
      .ok ⟨[{ path := goodPath, package := "com.example", imports := [],
              classes := [] }]⟩ :=
  ⟨rfl, rfl⟩

/-- C4: a hover lookup with no match never yields the empty hover: every
unresolved branch of `get_hover` is an error. -/
theorem get_hover_unresolved_is_error :
    ∀ (trees : List (FsPath × CST)) (pos : LspPosition) (tree : CST),
      get_hover trees pos tree ≠ .ok none := by
  intro trees pos tree
  unfold get_hover
  repeat' split
  all_goals try simp
  all_goals (split <;> simp)

/-- A one-node file used for a hover request that matches nothing. -/
def c4Tree : CST := .mk "source_file" "x" ⟨0, 0⟩ ⟨0, 1⟩ []

/-- C4 counterexample: a position below the file matches no node, and the
hover request returns a thrown error (the anyhow context message), not an
empty result. -/
theorem hover_no_match_yields_error :
    get_hover [] ⟨5, 0⟩ c4Tree =
      .error "node at Position \x7b line: 5, character: 0 \x7d not found" :=
  rfl

/-- C5: `long_literal`, `real_literal` and `hex_literal` are expression
kinds (`EXPRESSIONS` lists them) that `Expression::new` routes to
`Literal::new`, but `Literal::new` has no arm for them: construction
fails instead of storing the raw text. -/
theorem literal_long_real_hex_rejected :
    KB.EXPRESSIONS.contains "long_literal" = true ∧
    KB.EXPRESSIONS.contains "real_literal" = true ∧
    KB.EXPRESSIONS.contains "hex_literal" = true ∧
    KB.Literal.new 10 (.mk "long_literal" "42L" ⟨0, 0⟩ ⟨0, 3⟩ []) =
      .error "[Literal] unhandled node long_literal 42L at (0, 0)" ∧
    KB.Literal.new 10 (.mk "real_literal" "1.5" ⟨0, 0⟩ ⟨0, 3⟩ []) =
      .error "[Literal] unhandled node real_literal 1.5 at (0, 0)" ∧
    KB.Literal.new 10 (.mk "hex_literal" "0xFF" ⟨0, 0⟩ ⟨0, 4⟩ []) =
      .error "[Literal] unhandled node hex_literal 0xFF at (0, 0)" ∧
    KB.Expression.new 10 (.mk "long_literal" "42L" ⟨0, 0⟩ ⟨0, 3⟩ []) none =
      .error "[Literal] unhandled node long_literal 42L at (0, 0)" ∧
    KB.Literal.new 10 (.mk "integer_literal" "42" ⟨0, 0⟩ ⟨0, 2⟩ []) =
      .ok (.LitInteger "42") :=
  ⟨rfl, rfl, rfl, rfl, rfl, rfl, rfl, rfl⟩

/-- A run of `>>=` on `Except` hits `.ok` exactly through an `.ok`
intermediate value. -/
theorem except_bind_eq_ok {ε α β : Type} (x : Except ε α) (f : α → Except ε β) (b : β) :
    (x >>= f) = .ok b ↔ ∃ a, x = .ok a ∧ f a = .ok b := by
  cases x <;> simp [Bind.bind, Except.bind]

/-- C9: building the File model is deterministic: the model is a pure
function of the tree (with the content folded into it), so equal inputs
give structurally equal File models. -/
theorem kotlin_file_new_deterministic :
    ∀ (fuel : Nat) (t1 t2 : CST), t1 = t2 →
      KA.KotlinFile.new fuel t1 = KA.KotlinFile.new fuel t2 := by
  intro fuel t1 t2 h
  rw [h]

/-- C9 witness: the two builds of the same concrete file coincide. -/
theorem kotlin_file_new_deterministic_witness :
    KA.KotlinFile.new 10 goodTree = KA.KotlinFile.new 10 goodTree :=
  kotlin_file_new_deterministic 10 goodTree goodTree rfl

/-- The containment test of `Identifier::in_range`, unfolded: the line is
compared against the start line only. -/
theorem in_range_iff (i : KA.Identifier) (pos : KA.Position) :
    i.in_range pos = true ↔
      (i.range.1.line = pos.line ∧ i.range.1.char ≤ pos.char ∧
       pos.char ≤ i.range.2.char) := by
  simp [KA.Identifier.in_range, and_assoc, ge_iff_le]

/-- A successful `findSome?` pins an element of the list. -/
theorem findSome?_eq_some_exists {α β : Type} (f : α → Option β) :
    ∀ (l : List α) (b : β), l.findSome? f = some b → ∃ a, a ∈ l ∧ f a = some b := by
  intro l
  induction l with
  | nil => intro b h; simp [List.findSome?] at h
  | cons x xs ih =>
    intro b h
    rw [List.findSome?_cons] at h
    cases hf : f x with
    | some y =>
      rw [hf] at h
      exact ⟨x, List.mem_cons_self x xs, by rw [hf]; exact h⟩
    | none =>
      rw [hf] at h
      obtain ⟨a, ha, hfa⟩ := ih b h
      exact ⟨a, List.mem_cons_of_mem x ha, hfa⟩

/-- C10: `in_range` accepts a position exactly when the position's line
equals the identifier's START line and the column lies between the start
and end columns; consequently every identifier `hover_element` resolves
(through the per-class element lookup) lies on the cursor's line and its
range begins there. -/
theorem in_range_matches_start_line_only :
    (∀ (i : KA.Identifier) (pos : KA.Position),
       i.in_range pos = true ↔
         (i.range.1.line = pos.line ∧ i.range.1.char ≤ pos.char ∧
          pos.char ≤ i.range.2.char)) ∧
    (∀ (f : KA.KotlinFile) (pos : KA.Position) (h : Hover),
       f.hover_element pos = some h →
         ∃ k, k ∈ f.classes ∧
           ∃ i, i ∈ k.functions.flatMap (fun fn =>
               match fn.body with
               | some b => b.identifiers
               | none => []) ∧
             i.in_range pos = true ∧ i.range.1.line = pos.line ∧
             i.hover = some h) := by
  refine ⟨in_range_iff, ?_⟩
  intro f pos h hh
  unfold KA.KotlinFile.hover_element at hh
  obtain ⟨k, hk, hkel⟩ := findSome?_eq_some_exists _ _ _ hh
  refine ⟨k, hk, ?_⟩
  unfold KA.KotlinClass.get_elem at hkel
  cases hfind : (k.functions.flatMap (fun fn =>
      match fn.body with
      | some b => b.identifiers
      | none => [])).find? (fun i => i.in_range pos) with
  | none => rw [hfind] at hkel; simp at hkel
  | some i =>
    rw [hfind] at hkel
    simp only [Option.some_bind] at hkel
    have hmem := List.mem_of_find?_eq_some hfind
    have hp : i.in_range pos = true := by simpa using List.find?_some hfind
    exact ⟨i, hmem, hp, ((in_range_iff i pos).mp hp).1, hkel⟩

/-- A getter block appearing as a direct child of the property node:
`get` with no body. -/
def c6ChildGetter : CST :=
  .mk "getter" "get" ⟨1, 4⟩ ⟨1, 7⟩ [.mk "get" "get" ⟨1, 4⟩ ⟨1, 7⟩ []]

/-- A getter block appearing as the property node's next sibling:
`get() = 1`. -/
def c6SibGetter : CST :=
  .mk "getter" "get() = 1" ⟨2, 4⟩ ⟨2, 13⟩
    [.mk "get" "get" ⟨2, 4⟩ ⟨2, 7⟩ [],
     .mk "(" "(" ⟨2, 7⟩ ⟨2, 8⟩ [],
     .mk ")" ")" ⟨2, 8⟩ ⟨2, 9⟩ [],
     .mk "function_body" "= 1" ⟨2, 10⟩ ⟨2, 13⟩
       [.mk "=" "=" ⟨2, 10⟩ ⟨2, 11⟩ [],
        .mk "integer_literal" "1" ⟨2, 12⟩ ⟨2, 13⟩ []]]

/-- A property declaration `val x` carrying `c6ChildGetter` as a direct
child. -/
def c6Prop : CST :=
  .mk "property_declaration" "val x get" ⟨1, 0⟩ ⟨1, 7⟩
    [.mk "val" "val" ⟨1, 0⟩ ⟨1, 3⟩ [],
     .mk "variable_declaration" "x" ⟨1, 8⟩ ⟨1, 9⟩
       [.mk "simple_identifier" "x" ⟨1, 8⟩ ⟨1, 9⟩ []],
     c6ChildGetter]

/-- What `Property::new` built for `c6Prop` with `c6SibGetter` as next
sibling: the stored getter is the SIBLING one. -/
def c6PropVal : KB.Property :=
  .Property [] (.PVDSingle (.VariableDeclaration "x" none)) none .Val none none
    (some (.Getter (some []) (some (.FBExpression (.Literal (.LitInteger "1")))))) none

/-- C6: a property node with an accessor in BOTH locations does not keep
the direct child's accessor: the next-sibling check runs after the child
loop and overwrites the getter unconditionally, so the sibling wins, not
the first matching location. -/
theorem property_sibling_accessor_wins
    (fuel : Nat) (n g : CST) (p : KB.Property)
    (hk : g.kind = "getter")
    (hp : KB.Property.new (fuel + 1) n (some g) = .ok p) :
    ∃ gv, KB.Getter.new fuel g = .ok gv ∧ KB.Property.getterOf p = some gv := by
  simp only [KB.Property.new] at hp
  rw [except_bind_eq_ok] at hp
  obtain ⟨acc, hacc, hp⟩ := hp
  simp only [hk] at hp
  rw [except_bind_eq_ok] at hp
  obtain ⟨acc2, hacc2, hp⟩ := hp
  rw [except_bind_eq_ok] at hp
  obtain ⟨y, hy, hp⟩ := hp
  rw [except_bind_eq_ok] at hp
  obtain ⟨vd, hvd, hp⟩ := hp
  rw [except_bind_eq_ok] at hp
  obtain ⟨mu, hmu, hp⟩ := hp
  refine ⟨acc2, hacc2, ?_⟩
  simp only [pure, Except.pure, Except.ok.injEq] at hy hp
  subst hy
  subst hp
  rfl

/-- C6 witness: `property_sibling_accessor_wins` at the concrete property
`val x` with getters in both locations. -/
theorem property_sibling_accessor_wins_witness :
    ∃ gv, KB.Getter.new 9 c6SibGetter = .ok gv ∧
      KB.Property.getterOf c6PropVal = some gv :=
  property_sibling_accessor_wins 9 c6Prop c6SibGetter c6PropVal rfl rfl

/-- C6 counterexample: the direct-child getter (no body) and the sibling
getter (expression body `1`) differ, and the built property stores the
sibling one - the child accessor is the location that gets ignored. -/
theorem property_child_getter_overwritten :
    KB.Getter.new 9 c6ChildGetter = .ok (.Getter (some []) none) ∧
    KB.Property.new 10 c6Prop (some c6SibGetter) = .ok c6PropVal ∧
    KB.Property.getterOf c6PropVal =
      some (.Getter (some []) (some (.FBExpression (.Literal (.LitInteger "1"))))) ∧
    (KB.StmtNode.Getter (some []) none : KB.StmtNode) ≠
      .Getter (some []) (some (.FBExpression (.Literal (.LitInteger "1")))) :=
  ⟨rfl, rfl, rfl, by intro h; injection h with h1 h2; exact Option.noConfusion h2⟩

/-- The class declaration `class Bar(val f: Foo)`. -/
def c7ClassDecl : CST :=
  .mk "class_declaration" "class Bar(val f: Foo)" ⟨0, 0⟩ ⟨0, 22⟩
    [.mk "class" "class" ⟨0, 0⟩ ⟨0, 5⟩ [],
     .mk "type_identifier" "Bar" ⟨0, 6⟩ ⟨0, 9⟩ [],
     .mk "primary_constructor" "(val f: Foo)" ⟨0, 9⟩ ⟨0, 22⟩
       [.mk "(" "(" ⟨0, 9⟩ ⟨0, 10⟩ [],
        .mk "class_parameter" "val f: Foo" ⟨0, 10⟩ ⟨0, 20⟩
          [.mk "val" "val" ⟨0, 10⟩ ⟨0, 13⟩ [],
           .mk "simple_identifier" "f" ⟨0, 14⟩ ⟨0, 15⟩ [],
           .mk ":" ":" ⟨0, 15⟩ ⟨0, 16⟩ [],
           .mk "user_type" "Foo" ⟨0, 17⟩ ⟨0, 20⟩ []],
        .mk ")" ")" ⟨0, 21⟩ ⟨0, 22⟩ []]]

def c7FNode : CST := .mk "simple_identifier" "f" ⟨1, 0⟩ ⟨1, 1⟩ []

def c7DotNode : CST := .mk "." "." ⟨1, 1⟩ ⟨1, 2⟩ []

def c7BarNode : CST := .mk "simple_identifier" "bar" ⟨1, 2⟩ ⟨1, 5⟩ []

/-- The navigation suffix `.bar`. -/
def c7NavSuf : CST := .mk "navigation_suffix" ".bar" ⟨1, 1⟩ ⟨1, 5⟩ [c7DotNode, c7BarNode]

/-- The navigation expression `f.bar`. -/
def c7NavExpr : CST :=
  .mk "navigation_expression" "f.bar" ⟨1, 0⟩ ⟨1, 5⟩ [c7FNode, c7NavSuf]

/-- The current file: `class Bar(val f: Foo)` followed by `f.bar`. -/
def c7TreeA : CST :=
  .mk "source_file" "class Bar(val f: Foo)\nf.bar" ⟨0, 0⟩ ⟨1, 5⟩ [c7ClassDecl, c7NavExpr]

def c7RootCtx : Ctx := .mk c7TreeA none [] []

def c7NavExprCtx : Ctx := .mk c7NavExpr (some c7RootCtx) [c7ClassDecl] []

def c7NavSufCtx : Ctx := .mk c7NavSuf (some c7NavExprCtx) [c7FNode] []

/-- The traversal context of the hovered `bar` identifier. -/
def c7BarCtx : Ctx := .mk c7BarNode (some c7NavSufCtx) [c7DotNode] []

/-- Foo.kt of the project index: `public fun bar(): Int = 1`. -/
def c7TreeB : CST :=
  .mk "source_file" "public fun bar(): Int = 1" ⟨0, 0⟩ ⟨0, 25⟩
    [.mk "function_declaration" "public fun bar(): Int = 1" ⟨0, 0⟩ ⟨0, 25⟩
      [.mk "modifiers" "public" ⟨0, 0⟩ ⟨0, 6⟩
         [.mk "visibility_modifier" "public" ⟨0, 0⟩ ⟨0, 6⟩ []],
       .mk "fun" "fun" ⟨0, 7⟩ ⟨0, 10⟩ [],
       .mk "simple_identifier" "bar" ⟨0, 11⟩ ⟨0, 14⟩ [],
       .mk "function_value_parameters" "()" ⟨0, 14⟩ ⟨0, 16⟩ [],
       .mk ":" ":" ⟨0, 16⟩ ⟨0, 17⟩ [],
       .mk "user_type" "Int" ⟨0, 18⟩ ⟨0, 21⟩ [],
       .mk "=" "=" ⟨0, 22⟩ ⟨0, 23⟩ [],
       .mk "integer_literal" "1" ⟨0, 24⟩ ⟨0, 25⟩ []]]

def c7FooPath : FsPath := ⟨"/p/Foo.kt", some "Foo", some "kt"⟩

/-- The project index holding Foo.kt. -/
def c7Trees : List (FsPath × CST) := [(c7FooPath, c7TreeB)]

/-- C7: hover on a navigation suffix resolves in the order the claim
states - target from the previous sibling, its declared type in the
current file, the index entry whose stem equals the type, the function of
the suffix name in that entry - and each missing link produces exactly
the error naming that link, while a complete chain renders the fenced
signature. -/
theorem navigation_suffix_hover_resolution
    (trees : List (FsPath × CST)) (pos : LspPosition) (tree : CST) (c par : Ctx)
    (h1 : get_node tree pos = some c) (h2 : c.parent = some par)
    (h3 : par.node.kind = "navigation_suffix") :
    (par.before.head? = none →
      get_hover trees pos tree = .error "no navigation expression found") ∧
    (∀ target, par.before.head? = some target →
      (get_navigation_type tree target.text = none →
        get_hover trees pos tree =
          .error "no type for navigation expression found") ∧
      (∀ navType, get_navigation_type tree target.text = some navType →
        (findNavFile trees navType = none →
          get_hover trees pos tree = .error ("No file found for " ++ navType)) ∧
        (∀ entry, findNavFile trees navType = some entry →
          (get_function entry.2 c.node.text = none →
            get_hover trees pos tree =
              .error ("no function with name " ++ c.node.text ++ " found in " ++
                entry.1.dbgFmt)) ∧
          (∀ s, get_function entry.2 c.node.text = some s →
            get_hover trees pos tree = .ok (some ⟨mdCodeBlock s⟩))))) := by
  refine ⟨fun hx => ?_,
    fun target htar =>
      ⟨fun hx => ?_,
       fun navType hnav =>
         ⟨fun hx => ?_,
          fun entry hentry =>
            ⟨fun hx => ?_, fun s hfun => ?_⟩⟩⟩⟩ <;>
    simp [get_hover, h1, h2, h3, *]

/-- C7 witness: the complete chain on `class Bar(val f: Foo)` with `f.bar`
hovered at the suffix: the type of `f` resolves to `Foo`, the index entry
with stem Foo is found, and its function `bar` renders fenced. -/
theorem navigation_suffix_hover_resolution_witness :
    get_hover c7Trees ⟨1, 3⟩ c7TreeA =
      .ok (some ⟨"```kotlin\npublic fun bar(): Int\n```"⟩) :=
  ((((navigation_suffix_hover_resolution c7Trees ⟨1, 3⟩ c7TreeA c7BarCtx
        c7NavSufCtx rfl rfl rfl).2
      c7FNode rfl).2 "Foo" rfl).2 (c7FooPath, c7TreeB) rfl).2
    "public fun bar(): Int" rfl

/-- Foo.kt of the hover test, reconstructed: a class with
`private suspend fun concatenate(str1: String, str2: String): String`
whose body reads `str1` at line 8, columns 15-19. -/
def fooTree : CST :=
  .mk "source_file"
    "package com.example\n\nclass Foo \x7b ... \x7d" ⟨0, 0⟩ ⟨10, 1⟩
    [.mk "package" "package" ⟨0, 0⟩ ⟨0, 7⟩ [],
     .mk "identifier" "com.example" ⟨0, 8⟩ ⟨0, 19⟩ [],
     .mk "class_declaration" "class Foo \x7b ... \x7d" ⟨2, 0⟩ ⟨10, 1⟩
       [.mk "class" "class" ⟨2, 0⟩ ⟨2, 5⟩ [],
        .mk "type_identifier" "Foo" ⟨2, 6⟩ ⟨2, 9⟩ [],
        .mk "class_body" "\x7b ... \x7d" ⟨2, 10⟩ ⟨10, 1⟩
          [.mk "\x7b" "\x7b" ⟨2, 10⟩ ⟨2, 11⟩ [],
           .mk "function_declaration"
             "private suspend fun concatenate(str1: String, str2: String): String \x7b ... \x7d"
             ⟨3, 4⟩ ⟨9, 5⟩
             [.mk "modifiers" "private suspend" ⟨3, 4⟩ ⟨3, 19⟩
                [.mk "visibility_modifier" "private" ⟨3, 4⟩ ⟨3, 11⟩ [],
                 .mk "function_modifier" "suspend" ⟨3, 12⟩ ⟨3, 19⟩ []],
              .mk "fun" "fun" ⟨3, 20⟩ ⟨3, 23⟩ [],
              .mk "simple_identifier" "concatenate" ⟨3, 24⟩ ⟨3, 35⟩ [],
              .mk "function_value_parameters"
                "(str1: String, str2: String)" ⟨3, 35⟩ ⟨6, 5⟩
                [.mk "(" "(" ⟨3, 35⟩ ⟨3, 36⟩ [],
                 .mk "parameter" "str1: String" ⟨4, 8⟩ ⟨4, 20⟩
                   [.mk "simple_identifier" "str1" ⟨4, 8⟩ ⟨4, 12⟩ [],
                    .mk ":" ":" ⟨4, 12⟩ ⟨4, 13⟩ [],
                    .mk "user_type" "String" ⟨4, 14⟩ ⟨4, 20⟩ []],
                 .mk "," "," ⟨4, 20⟩ ⟨4, 21⟩ [],
                 .mk "parameter" "str2: String" ⟨5, 8⟩ ⟨5, 20⟩
                   [.mk "simple_identifier" "str2" ⟨5, 8⟩ ⟨5, 12⟩ [],
                    .mk ":" ":" ⟨5, 12⟩ ⟨5, 13⟩ [],
                    .mk "user_type" "String" ⟨5, 14⟩ ⟨5, 20⟩ []],
                 .mk ")" ")" ⟨6, 4⟩ ⟨6, 5⟩ []],
              .mk ":" ":" ⟨6, 5⟩ ⟨6, 6⟩ [],
              .mk "user_type" "String" ⟨6, 7⟩ ⟨6, 13⟩ [],
              .mk "function_body" "\x7b ... \x7d" ⟨6, 14⟩ ⟨9, 5⟩
                [.mk "\x7b" "\x7b" ⟨6, 14⟩ ⟨6, 15⟩ [],
                 .mk "statements" "val result = str1 + str2\nreturn str1"
                   ⟨7, 8⟩ ⟨8, 19⟩
                   [.mk "property_declaration" "val result = str1 + str2"
                      ⟨7, 8⟩ ⟨7, 32⟩
                      [.mk "val" "val" ⟨7, 8⟩ ⟨7, 11⟩ [],
                       .mk "variable_declaration" "result" ⟨7, 12⟩ ⟨7, 18⟩
                         [.mk "simple_identifier" "result" ⟨7, 12⟩ ⟨7, 18⟩ []],
                       .mk "=" "=" ⟨7, 19⟩ ⟨7, 20⟩ [],
                       .mk "additive_expression" "str1 + str2" ⟨7, 21⟩ ⟨7, 32⟩
                         [.mk "simple_identifier" "str1" ⟨7, 21⟩ ⟨7, 25⟩ [],
                          .mk "+" "+" ⟨7, 26⟩ ⟨7, 27⟩ [],
                          .mk "simple_identifier" "str2" ⟨7, 28⟩ ⟨7, 32⟩ []]],
                    .mk "jump_expression" "return str1" ⟨8, 8⟩ ⟨8, 19⟩
                      [.mk "return" "return" ⟨8, 8⟩ ⟨8, 14⟩ [],
                       .mk "simple_identifier" "str1" ⟨8, 15⟩ ⟨8, 19⟩ []]],
                 .mk "\x7d" "\x7d" ⟨9, 4⟩ ⟨9, 5⟩ []]],
           .mk "\x7d" "\x7d" ⟨10, 0⟩ ⟨10, 1⟩ []]]]

/-- C8: building the File model of the reconstructed Foo.kt and
populating types, the recorded identifier occurrences of parameter `str1`
inside the function body are exactly two - `str1 + str2` at (7, 21)-(7, 25)
and `return str1` at (8, 15)-(8, 19), both typed String - and hovering
EVERY position inside either occurrence (the in_range position set: the
occurrence's start line, column between start and end) renders exactly
the fenced block with `str1: String`, bit for bit. -/
theorem function_parameter_hover_renders_exactly :
    ∃ fl, KA.KotlinFile.new 10 fooTree = .ok fl ∧
      ((fl.populate_types.classes.flatMap (fun k => k.functions)).flatMap
          (fun fn =>
            match fn.body with
            | some b => b.identifiers
            | none => [])).filter (fun i => i.name == "str1") =
        [⟨"str1", (⟨7, 21⟩, ⟨7, 25⟩), some ⟨"String"⟩⟩,
         ⟨"str1", (⟨8, 15⟩, ⟨8, 19⟩), some ⟨"String"⟩⟩] ∧
      ∀ (pos : KA.Position),
        ((pos.line = 7 ∧ 21 ≤ pos.char ∧ pos.char ≤ 25) ∨
         (pos.line = 8 ∧ 15 ≤ pos.char ∧ pos.char ≤ 19)) →
        fl.populate_types.hover_element pos =
          some ⟨"```kotlin\nstr1: String\n```"⟩ := by
  refine ⟨_, rfl, rfl, ?_⟩
  intro pos h
  obtain ⟨line, char⟩ := pos
  rcases h with ⟨h1, h2, h3⟩ | ⟨h1, h2, h3⟩ <;> subst h1 <;>
    interval_cases char <;> rfl
